import Mathlib

/-! Verification of the Lottie frame renderer core
    (Telegram/SourceFiles/lottie/lottie_frame_renderer.cpp).

    The development shallowly embeds the SharedState ring-buffer state
    machine: four frame slots, an atomic phase counter in [0, 2 * 4),
    the background render step, and the consumer-side operations.
    C++ integer division and remainder truncate toward zero, so they are
    modelled by Int.tdiv and Int.tmod.  Assertion failures (Assert,
    Unexpected) are modelled by Option: a call that would hit one
    returns none.  The companion header lottie_frame_renderer.h is not
    part of the sources; the handful of definitions it provides
    (constants, Frame field defaults, FrameRequest::size) are modelled
    from the spec and marked as such. -/

namespace Lottie

/-- Integer 2D size, as Qt's QSize. -/
structure QSize where
  w : Int
  h : Int
deriving DecidableEq

/-- Qt's QSize::isEmpty: width or height is less than 1. -/
def QSize.isEmpty (s : QSize) : Bool := s.w < 1 || s.h < 1

/-- Modelled from the spec: Qt's QSize::scaled with Qt::KeepAspectRatio,
    used by FrameRequest::size in the missing header.  Scales the
    original size to fit the box while keeping the aspect ratio. -/
def QSize.scaledKeepAspect (original box : QSize) : QSize :=
  let rw := Int.tdiv (box.h * original.w) original.h
  if rw ≤ box.w then ⟨rw, box.h⟩
  else ⟨box.w, Int.tdiv (box.w * original.h) original.w⟩

/-- Abstract pixel contents of an image buffer.  The model only needs to
    distinguish a blank buffer, a buffer holding a decoded animation
    frame, and buffers derived by scaling / recoloring. -/
inductive PixData where
  | blank : PixData
  | decodedFrame (index : Int) : PixData
  | drawnFrom (src : PixData) (w h : Int) : PixData
  | recolored (color : Nat) (src : PixData) : PixData
deriving DecidableEq

/-- Image buffer model: nullness, dimensions, whether the format is the
    required Format_ARGB32_Premultiplied, whether the buffer is
    detached, and its abstract contents. -/
structure QImage where
  isNull : Bool
  w : Int
  h : Int
  goodFormat : Bool
  detached : Bool
  data : PixData
deriving DecidableEq

/-- Default-constructed QImage(): the null image. -/
def QImage.nullImage : QImage := ⟨true, 0, 0, false, true, .blank⟩

/-- Size of an image. -/
def QImage.size (i : QImage) : QSize := ⟨i.w, i.h⟩

/-- Frame request: target box (possibly empty, meaning natural size) and
    an optional recolor.  The color is abstracted to a Nat. -/
structure FrameRequest where
  box : QSize
  colored : Option Nat
deriving DecidableEq

/-- Modelled from the spec: FrameRequest::NonStrict from the missing
    header, the default request with an empty box and no recolor. -/
def FrameRequest.nonStrict : FrameRequest := ⟨⟨0, 0⟩, none⟩

/-- Modelled from the spec: FrameRequest::size from the missing header:
    the original size scaled to fit the box keeping aspect ratio,
    clamped to at least 1 on each axis. -/
def FrameRequest.size (r : FrameRequest) (original : QSize) : QSize :=
  let result := original.scaledKeepAspect r.box
  ⟨max result.w 1, max result.h 1⟩

/-- Sentinel kTimeUnknown: the minimal int64 value of crl::time. -/
def kTimeUnknown : Int := -(2 ^ 63)

/-- Sentinel returned by nextFrameDisplayTime when the frame awaiting
    promotion was already marked displayed: the maximal int64 value. -/
def kFrameDisplayTimeAlreadyDone : Int := 2 ^ 63 - 1

/-- Modelled from the spec: the counter sentinel from the missing header
    marking a state on which start() was not called yet. -/
def kCounterUninitialized : Int := -1

/-- Number of frame slots in the ring.  The missing header defines it;
    the 8-case switches over the counter in the source pin
    2 * kFramesCount = 8. -/
def kFramesCount : Int := 4

/-- Modelled from the spec: maximal accepted frame dimension from the
    missing header (the exact bound is immaterial to the claims). -/
def kMaxSize : Int := 3096

/-- Modelled from the spec: maximal accepted frame rate from the missing
    header (the exact bound is immaterial to the claims). -/
def kMaxFrameRate : Int := 120

/-- Modelled from the spec: maximal accepted frames count from the
    missing header (the exact bound is immaterial to the claims). -/
def kMaxFramesCount : Int := 600

/-- One frame slot.  Modelled from the spec: the field defaults come
    from the missing header.  A fresh slot is free for reuse, not
    "rendered awaiting show", so displayed defaults to a known value
    (0), not kTimeUnknown; this is forced by the source itself, since
    FrameRendererObject::append reads frameForPaint() on a fresh state
    (which asserts displayed != kTimeUnknown) and the very first
    prerender treats fresh slots as free. -/
structure Frame where
  original : QImage := QImage.nullImage
  displayed : Int := 0
  display : Int := kTimeUnknown
  index : Int := 0
  prepared : QImage := QImage.nullImage
  request : FrameRequest := FrameRequest.nonStrict
deriving DecidableEq

/-- Information record returned by SharedState::information. -/
structure Information where
  frameRate : Int := 0
  size : QSize := ⟨0, 0⟩
  framesCount : Int := 0
deriving DecidableEq

/-- Result of SharedState::renderNextFrame: whether work was done and
    whether the owner should be notified (the weak owner pointer is
    abstracted to a Bool). -/
structure RenderResult where
  rendered : Bool := false
  notify : Bool := false
deriving DecidableEq

/-- The per-animation shared state: four frame slots, the phase counter,
    the running frame index and the timing fields.  The cache is absent
    (states built from a live decode handle) and the owner pointer is
    abstracted to a Bool. -/
structure SharedState where
  f0 : Frame := {}
  f1 : Frame := {}
  f2 : Frame := {}
  f3 : Frame := {}
  counter : Int := kCounterUninitialized
  frameIndex : Int := 0
  size : QSize := ⟨0, 0⟩
  frameRate : Int := 0
  framesCount : Int := 0
  started : Int := 0
  delay : Int := 0
  skippedFrames : Int := 0
  ownerSet : Bool := false
deriving DecidableEq

/-- SharedState::getFrame.  The source Expects 0 <= index < kFramesCount;
    call sites only pass indices in range, the catch-all is junk. -/
def SharedState.getFrame (s : SharedState) (index : Nat) : Frame :=
  match index with
  | 0 => s.f0
  | 1 => s.f1
  | 2 => s.f2
  | 3 => s.f3
  | _ => s.f0

/-- Writing a frame slot back (the source works through a pointer). -/
def SharedState.setFrame (s : SharedState) (index : Nat) (f : Frame) : SharedState :=
  match index with
  | 0 => { s with f0 := f }
  | 1 => { s with f1 := f }
  | 2 => { s with f2 := f }
  | 3 => { s with f3 := f }
  | _ => s

/-- GoodStorageForFrame from the anonymous namespace. -/
def GoodStorageForFrame (storage : QImage) (size : QSize) : Bool :=
  !storage.isNull && storage.goodFormat && storage.size == size && storage.detached

/-- CreateFrameStorage: QImage(size, kImageFormat); a Qt image with an
    empty size is null. -/
def CreateFrameStorage (size : QSize) : QImage :=
  if size.isEmpty then QImage.nullImage
  else ⟨false, size.w, size.h, true, true, .blank⟩

/-- GoodForRequest: the original image may be used directly when the box
    is empty, or when no recolor is requested and the box matches the
    image on at least one axis. -/
def GoodForRequest (image : QImage) (request : FrameRequest) : Bool :=
  if request.box.isEmpty then true
  else if request.colored.isSome then false
  else
    let size := image.size
    request.box.w == size.w || request.box.h == size.h

/-- PrepareByRequest: paint the original scaled into (possibly reused)
    storage of the requested size, then optionally recolor.  The source
    Expects a non-empty request box. -/
def PrepareByRequest (original : QImage) (request : FrameRequest)
    (storage : QImage) : QImage :=
  let size := request.size original.size
  let storage :=
    if GoodStorageForFrame storage size then storage else CreateFrameStorage size
  let storage := { storage with data := .drawnFrom original.data size.w size.h }
  match request.colored with
  | some c => { storage with data := .recolored c storage.data }
  | none => storage

/-- PrepareFrameByRequest: returns the image to show for the frame's
    request and the updated frame (the source mutates frame->prepared).
    The source Expects a non-null original. -/
def PrepareFrameByRequest (frame : Frame) (useExistingPrepared : Bool) :
    QImage × Frame :=
  if GoodForRequest frame.original frame.request then
    (frame.original, frame)
  else if frame.prepared.isNull || !useExistingPrepared then
    let prepared := PrepareByRequest frame.original frame.request frame.prepared
    (prepared, { frame with prepared := prepared })
  else
    (frame.prepared, frame)

/-- IsRendered: a slot holds a rendered frame that was not yet shown. -/
def IsRendered (frame : Frame) : Bool := frame.displayed == kTimeUnknown

/-- SharedState::isValid. -/
def SharedState.isValid (s : SharedState) : Bool :=
  s.framesCount > 0 && s.frameRate > 0 && !s.size.isEmpty

/-- SharedState::renderFrame for cache-less states: does nothing on an
    invalid state; otherwise ensures good storage and decodes animation
    frame number index into it (fill + rlottie renderSync). -/
def SharedState.renderFrame (s : SharedState) (image : QImage)
    (request : FrameRequest) (index : Int) : QImage :=
  if !s.isValid then image
  else
    let size := if request.box.isEmpty then s.size else request.size s.size
    let image :=
      if GoodStorageForFrame image size then image else CreateFrameStorage size
    { image with data := .decodedFrame index }

/-- SharedState::information. -/
def SharedState.information (s : SharedState) : Information :=
  if !s.isValid then {}
  else { frameRate := s.frameRate, size := s.size, framesCount := s.framesCount }

/-- SharedState::countFrameDisplayTime. -/
def SharedState.countFrameDisplayTime (s : SharedState) (index : Int) : Int :=
  s.started + s.delay + Int.tdiv (1000 * (s.skippedFrames + index)) s.frameRate

/-- SharedState::renderNextFrame(not_null<Frame*>, const FrameRequest&):
    decode the next animation frame into the slot, store the request,
    refresh the prepared image, tag the slot with the running frame
    index and mark it rendered.  The source Expects _framesCount > 0. -/
def SharedState.renderNextFrameInto (s : SharedState) (index : Nat)
    (request : FrameRequest) : SharedState :=
  let fi := s.frameIndex + 1
  let frame := s.getFrame index
  let frame :=
    { frame with original := s.renderFrame frame.original request (Int.tmod fi s.framesCount) }
  let frame := { frame with request := request }
  let frame := (PrepareFrameByRequest frame false).2
  let frame := { frame with index := fi, displayed := kTimeUnknown }
  { s.setFrame index frame with frameIndex := fi }

/-- SharedState::renderNextFrame(const FrameRequest&): the background
    step.  Even counter phases present the next slot (stamping its
    display time and advancing the counter), odd phases prerender up to
    two slots ahead.  The switch's default branch (Unexpected) is
    modelled by none. -/
def SharedState.renderNextFrame (s : SharedState) (request : FrameRequest) :
    Option (SharedState × RenderResult) :=
  let prerender : Nat → Option (SharedState × RenderResult) := fun index =>
    let frame := s.getFrame index
    let next := s.getFrame ((index + 1) % 4)
    if !(IsRendered frame) then
      some (s.renderNextFrameInto index request, { rendered := true })
    else if !(IsRendered next) then
      some (s.renderNextFrameInto ((index + 1) % 4) request, { rendered := true })
    else
      some (s, { rendered := false })
  let present : Int → Nat → Option (SharedState × RenderResult) :=
    fun counter index =>
      let s :=
        if !(IsRendered (s.getFrame index)) then s.renderNextFrameInto index request else s
      let frame := s.getFrame index
      let s := s.setFrame index { frame with display := s.countFrameDisplayTime frame.index }
      let s := { s with counter := Int.tmod (counter + 1) (2 * kFramesCount) }
      some (s, { rendered := true, notify := s.ownerSet })
  if s.counter = 0 then present 0 1
  else if s.counter = 1 then prerender 2
  else if s.counter = 2 then present 2 2
  else if s.counter = 3 then prerender 3
  else if s.counter = 4 then present 4 3
  else if s.counter = 5 then prerender 0
  else if s.counter = 6 then present 6 0
  else if s.counter = 7 then prerender 1
  else none

/-- SharedState::frameForPaint: the presented slot, with the two Asserts
    (non-null original, already displayed) modelled by none. -/
def SharedState.frameForPaint (s : SharedState) : Option Frame :=
  let result := s.getFrame (Int.tdiv s.counter 2).toNat
  if result.original.isNull then none
  else if result.displayed == kTimeUnknown then none
  else some result

/-- SharedState::nextFrameDisplayTime: kTimeUnknown at even phases; at
    odd phases the display time of the frame awaiting promotion, or the
    kFrameDisplayTimeAlreadyDone sentinel when it was already marked
    displayed.  Asserts and the switch default are modelled by none. -/
def SharedState.nextFrameDisplayTime (s : SharedState) : Option Int :=
  let frameDisplayTime : Int → Option Int := fun counter =>
    let next := Int.tmod (counter + 1) (2 * kFramesCount)
    let index := (Int.tdiv next 2).toNat
    let frame := s.getFrame index
    if frame.displayed != kTimeUnknown then some kFrameDisplayTimeAlreadyDone
    else if !(IsRendered frame) then none
    else if frame.display == kTimeUnknown then none
    else some frame.display
  if s.counter = 0 then some kTimeUnknown
  else if s.counter = 1 then frameDisplayTime 1
  else if s.counter = 2 then some kTimeUnknown
  else if s.counter = 3 then frameDisplayTime 3
  else if s.counter = 4 then some kTimeUnknown
  else if s.counter = 5 then frameDisplayTime 5
  else if s.counter = 6 then some kTimeUnknown
  else if s.counter = 7 then frameDisplayTime 7
  else none

/-- SharedState::addTimelineDelay: no-op on (0, 0); otherwise only legal
    at odd phases (the even cases and the default are Unexpected,
    modelled by none): fold the deltas into delay / skippedFrames and
    recompute the pending frame's display time unless it was already
    marked displayed. -/
def SharedState.addTimelineDelay (s : SharedState) (delayed : Int)
    (skippedFrames : Int) : Option SharedState :=
  if delayed = 0 ∧ skippedFrames = 0 then some s
  else
    let recountCurrentFrame : Int → Option SharedState := fun counter =>
      let s :=
        { s with delay := s.delay + delayed, skippedFrames := s.skippedFrames + skippedFrames }
      let next := Int.tmod (counter + 1) (2 * kFramesCount)
      let index := (Int.tdiv next 2).toNat
      let frame := s.getFrame index
      if frame.displayed != kTimeUnknown then some s
      else if !(IsRendered frame) then none
      else if frame.display == kTimeUnknown then none
      else some (s.setFrame index { frame with display := s.countFrameDisplayTime frame.index })
    if s.counter = 1 then recountCurrentFrame 1
    else if s.counter = 3 then recountCurrentFrame 3
    else if s.counter = 5 then recountCurrentFrame 5
    else if s.counter = 7 then recountCurrentFrame 7
    else none

/-- SharedState::markFrameDisplayed: only legal at odd phases; marks the
    frame awaiting promotion as displayed at now, first mark sticks. -/
def SharedState.markFrameDisplayed (s : SharedState) (now : Int) :
    Option SharedState :=
  let mark : Int → Option SharedState := fun counter =>
    let next := Int.tmod (counter + 1) (2 * kFramesCount)
    let index := (Int.tdiv next 2).toNat
    let frame := s.getFrame index
    if frame.displayed == kTimeUnknown then
      some (s.setFrame index { frame with displayed := now })
    else some s
  if s.counter = 1 then mark 1
  else if s.counter = 3 then mark 3
  else if s.counter = 5 then mark 5
  else if s.counter = 7 then mark 7
  else none

/-- SharedState::markFrameShown: false at even phases; at odd phases
    advances the counter when the frame awaiting promotion was already
    displayed, otherwise false.  The switch default is none. -/
def SharedState.markFrameShown (s : SharedState) : Option (SharedState × Bool) :=
  let jump : Int → Option (SharedState × Bool) := fun counter =>
    let next := Int.tmod (counter + 1) (2 * kFramesCount)
    let index := (Int.tdiv next 2).toNat
    let frame := s.getFrame index
    if frame.displayed == kTimeUnknown then some (s, false)
    else some ({ s with counter := next }, true)
  if s.counter = 0 then some (s, false)
  else if s.counter = 1 then jump 1
  else if s.counter = 2 then some (s, false)
  else if s.counter = 3 then jump 3
  else if s.counter = 4 then some (s, false)
  else if s.counter = 5 then jump 5
  else if s.counter = 6 then some (s, false)
  else if s.counter = 7 then jump 7
  else none

/-- SharedState::start: arm the machine and publish counter 0. -/
def SharedState.start (s : SharedState) (started delay : Int)
    (skippedFrames : Int) : SharedState :=
  { s with ownerSet := true, started := started, delay := delay,
           skippedFrames := skippedFrames, counter := 0 }

/-- Values reported by the decode handle (rlottie Animation::size,
    frameRate, totalFrame).  The source reads the rate as a double; the
    model keeps it integral, which covers all claim-relevant cases. -/
structure ReportedProperties where
  width : Int
  height : Int
  rate : Int
  count : Int
deriving DecidableEq

/-- SharedState::calculateProperties: clamp out-of-range reported values
    to 0 (rendering the state invalid). -/
def calculateProperties (rep : ReportedProperties) (s : SharedState) : SharedState :=
  { s with
    size := ⟨if rep.width > 0 && rep.width < kMaxSize then rep.width else 0,
             if rep.height > 0 && rep.height < kMaxSize then rep.height else 0⟩,
    frameRate := if rep.rate ≥ 1 && rep.rate ≤ kMaxFrameRate then rep.rate else 0,
    framesCount := if rep.count > 0 && rep.count ≤ kMaxFramesCount then rep.count else 0 }

/-- SharedState::construct for a state built from a live decode handle
    (no cache): compute properties, and if valid decode frame 0 as the
    cover into slot 0 (SharedState::init). -/
def constructState (rep : ReportedProperties) (request : FrameRequest) : SharedState :=
  let s := calculateProperties rep {}
  if !s.isValid then s
  else
    let cover := s.renderFrame QImage.nullImage request 0
    { s with f0 := { s.f0 with request := request, original := cover } }

/-- Public operations of the state machine. -/
inductive Op where
  | startOp (started delay skipped : Int)
  | renderOp (request : FrameRequest)
  | shownOp
  | displayedOp (now : Int)
  | delayOp (delayed skipped : Int)
deriving DecidableEq

/-- One legal call on the state machine.  The guards encode the call
    protocol from the spec: start() is only valid once, before any
    render, with nonnegative wall-clock arguments; addTimelineDelay
    shifts by a nonnegative pause/starvation amount.  A call that the
    source would answer with an assertion failure yields none. -/
def stepOp (s : SharedState) : Op → Option SharedState
  | .startOp t d k =>
    if s.counter = kCounterUninitialized ∧ 0 ≤ t ∧ 0 ≤ d ∧ 0 ≤ k then
      some (s.start t d k)
    else none
  | .renderOp request => (s.renderNextFrame request).map Prod.fst
  | .shownOp => (s.markFrameShown).map Prod.fst
  | .displayedOp now => s.markFrameDisplayed now
  | .delayOp d k => if 0 ≤ d ∧ 0 ≤ k then s.addTimelineDelay d k else none

/-- States reachable from a freshly constructed state by legal calls. -/
inductive Reach (rep : ReportedProperties) (request : FrameRequest) :
    SharedState → Prop where
  | base : Reach rep request (constructState rep request)
  | step {s s' : SharedState} {op : Op} :
      Reach rep request s → stepOp s op = some s' → Reach rep request s'

/-- Run a list of calls, failing if any call fails. -/
def runOps (s : SharedState) : List Op → Option SharedState
  | [] => some s
  | op :: ops =>
    match stepOp s op with
    | some s' => runOps s' ops
    | none => none

/-- Slot i holds a rendered frame not yet shown (IsRendered). -/
abbrev slotRendered (s : SharedState) (i : Nat) : Prop :=
  (s.getFrame i).displayed = kTimeUnknown

/-- Slot i was displayed (or is free for reuse). -/
abbrev slotShown (s : SharedState) (i : Nat) : Prop :=
  (s.getFrame i).displayed ≠ kTimeUnknown

/-- Frame index tag of slot i. -/
abbrev slotIdx (s : SharedState) (i : Nat) : Int :=
  (s.getFrame i).index

/-- Slot i holds a non-null original image. -/
abbrev slotNonNull (s : SharedState) (i : Nat) : Prop :=
  (s.getFrame i).original.isNull = false

/-- Shared part of the machine invariant: a valid animation with
    nonnegative timing parameters and frame indices. -/
def InvBase (s : SharedState) : Prop :=
  1 ≤ s.frameRate ∧ 1 ≤ s.framesCount ∧ s.size.isEmpty = false ∧
  0 ≤ s.started ∧ 0 ≤ s.delay ∧ 0 ≤ s.skippedFrames ∧ 0 ≤ s.frameIndex ∧
  0 ≤ s.f0.index ∧ 0 ≤ s.f1.index ∧ 0 ≤ s.f2.index ∧ 0 ≤ s.f3.index

/-- Invariant of a constructed, not yet started state: all slots free,
    the cover decoded into slot 0. -/
def InvPre (s : SharedState) : Prop :=
  slotShown s 0 ∧ slotShown s 1 ∧ slotShown s 2 ∧ slotShown s 3 ∧
  slotNonNull s 0 ∧ s.frameIndex = slotIdx s 0

/-- Invariant of an even phase counter = 2 * m: slot m is presented and
    was shown; the previously presented slot m + 3 is free; look-ahead
    slots m + 1 and m + 2 are rendered in order with increasing frame
    indices; the running frame index is the last one handed out. -/
def InvEven (s : SharedState) (m : Nat) : Prop :=
  slotShown s m ∧ slotNonNull s m ∧
  slotShown s ((m + 3) % 4) ∧
  (slotRendered s ((m + 2) % 4) → slotRendered s ((m + 1) % 4)) ∧
  (slotRendered s ((m + 1) % 4) →
    slotIdx s m < slotIdx s ((m + 1) % 4) ∧ slotNonNull s ((m + 1) % 4)) ∧
  (slotRendered s ((m + 2) % 4) →
    slotIdx s ((m + 1) % 4) < slotIdx s ((m + 2) % 4) ∧ slotNonNull s ((m + 2) % 4)) ∧
  s.frameIndex =
    (if slotRendered s ((m + 2) % 4) then slotIdx s ((m + 2) % 4)
     else if slotRendered s ((m + 1) % 4) then slotIdx s ((m + 1) % 4)
     else slotIdx s m)

/-- Invariant of an odd phase counter = 2 * m + 1: slot m is still
    presented; slot m + 1 awaits promotion with a freshly stamped
    display time; further look-ahead slots are rendered in order. -/
def InvOdd (s : SharedState) (m : Nat) : Prop :=
  slotShown s m ∧ slotNonNull s m ∧
  slotIdx s m < slotIdx s ((m + 1) % 4) ∧ slotNonNull s ((m + 1) % 4) ∧
  (slotRendered s ((m + 1) % 4) →
    (s.getFrame ((m + 1) % 4)).display
      = s.countFrameDisplayTime (slotIdx s ((m + 1) % 4))) ∧
  (slotRendered s ((m + 2) % 4) →
    slotIdx s ((m + 1) % 4) < slotIdx s ((m + 2) % 4) ∧ slotNonNull s ((m + 2) % 4)) ∧
  (slotRendered s ((m + 3) % 4) →
    slotRendered s ((m + 2) % 4) ∧
    slotIdx s ((m + 2) % 4) < slotIdx s ((m + 3) % 4) ∧ slotNonNull s ((m + 3) % 4)) ∧
  s.frameIndex =
    (if slotRendered s ((m + 3) % 4) then slotIdx s ((m + 3) % 4)
     else if slotRendered s ((m + 2) % 4) then slotIdx s ((m + 2) % 4)
     else slotIdx s ((m + 1) % 4))

/-- The machine invariant, dispatched on the phase counter. -/
def Inv (s : SharedState) : Prop :=
  InvBase s ∧
  (if s.counter = kCounterUninitialized then InvPre s
   else if s.counter = 0 then InvEven s 0
   else if s.counter = 1 then InvOdd s 0
   else if s.counter = 2 then InvEven s 1
   else if s.counter = 3 then InvOdd s 1
   else if s.counter = 4 then InvEven s 2
   else if s.counter = 5 then InvOdd s 2
   else if s.counter = 6 then InvEven s 3
   else if s.counter = 7 then InvOdd s 3
   else False)

/-- Frame index of the slot the next promotion concerns: the presented
    slot at even phases, the slot awaiting promotion at odd phases. -/
def Nval (s : SharedState) : Int :=
  slotIdx s ((Int.tdiv (Int.tmod (s.counter + 1) (2 * kFramesCount)) 2).toNat)

/-- Ring slot examined by the consumer-side operations: the slot of the
    frame the next promotion concerns. -/
def pendSlot (s : SharedState) : Nat :=
  ((Int.tmod (s.counter + 1) (2 * kFramesCount)).tdiv 2).toNat

/-- Reported properties of a 100x100, 30 fps, 30-frame animation. -/
def rep30 : ReportedProperties := ⟨100, 100, 30, 30⟩

/-- Reported properties of a two-frame animation. -/
def repF2 : ReportedProperties := ⟨100, 100, 30, 2⟩

/-- The empty request: natural size, no recolor. -/
def reqEmpty : FrameRequest := FrameRequest.nonStrict

/-- The canonical start call: startedAt = 0, delay = 0, skippedFrames = 0. -/
def startOp0 : Op := .startOp 0 0 0

/-- One consumer/producer pump: render, mark displayed, mark shown. -/
def pumpOps (req : FrameRequest) (n : Nat) : List Op :=
  (List.replicate n [Op.renderOp req, Op.displayedOp 1, Op.shownOp]).flatten

/-- Started state of the 30-frame scenario. -/
def s30 : SharedState := (constructState rep30 reqEmpty).start 0 0 0

/-- Started state of the two-frame scenario. -/
def sF2 : SharedState := (constructState repF2 reqEmpty).start 0 0 0

/-- Run n pumps from the started 30-frame scenario, recording after each
    pump the display stamp of the newly presented frame. -/
def pumpTrace : Nat → Option (SharedState × List Int)
  | 0 => some (s30, [])
  | n + 1 =>
    match pumpTrace n with
    | some (s, acc) =>
      match runOps s (pumpOps reqEmpty 1) with
      | some s' =>
        some (s', acc ++ [(s'.getFrame ((Int.tdiv s'.counter 2).toNat)).display])
      | none => none
    | none => none

/-- State reached in the two-frame scenario after start and two
    successful renders (a present and a prerender). -/
def c1state : Option SharedState :=
  runOps (constructState repF2 reqEmpty)
    [startOp0, Op.renderOp reqEmpty, Op.renderOp reqEmpty]

/-- State reached in the 30-frame scenario after 29 full pumps and one
    further render: the 30th promotion is pending in slot 2. -/
def c2state : Option SharedState :=
  runOps (constructState rep30 reqEmpty)
    (startOp0 :: (pumpOps reqEmpty 29 ++ [Op.renderOp reqEmpty]))

/-- Frame whose request box matches the 100x100 decoded original on both
    axes but asks for a recolor. -/
def c8frame : Frame :=
  { original := ⟨false, 100, 100, true, true, PixData.decodedFrame 0⟩,
    displayed := 0, display := 0, index := 0,
    prepared := QImage.nullImage, request := ⟨⟨100, 100⟩, some 1⟩ }

/-- State reached in the 30-frame scenario after start, one render and a
    markFrameDisplayed: the pending frame is already displayed. -/
def c6state : Option SharedState :=
  runOps (constructState rep30 reqEmpty)
    [startOp0, Op.renderOp reqEmpty, Op.displayedOp 5]

/-- Started 30-frame state after one render: counter 1, frame index 1
    pending with display stamp 33. -/
def s31 : SharedState := (stepOp s30 (Op.renderOp reqEmpty)).getD s30

/-- One legal call that is not an addTimelineDelay. -/
def NDStep (a b : SharedState) : Prop :=
  ∃ op : Op, stepOp a op = some b ∧ ∀ d k : Int, op ≠ Op.delayOp d k

/-- State after marking the pending frame displayed at 5. -/
def s32 : SharedState := (stepOp s31 (Op.displayedOp 5)).getD s31

/-- State after the subsequent markFrameShown. -/
def s33 : SharedState := (stepOp s32 Op.shownOp).getD s32

/-- State after one more render (the next present). -/
def s34 : SharedState := (stepOp s33 (Op.renderOp reqEmpty)).getD s33

@[simp] theorem kCounterUninitialized_eq : kCounterUninitialized = -1 := by decide

@[simp] theorem kFramesCount_eq : kFramesCount = 4 := by decide

@[simp] theorem tmodL0 : Int.tmod 0 8 = 0 := by decide

@[simp] theorem tmodL1 : Int.tmod 1 8 = 1 := by decide

@[simp] theorem tmodL2 : Int.tmod 2 8 = 2 := by decide

@[simp] theorem tmodL3 : Int.tmod 3 8 = 3 := by decide

@[simp] theorem tmodL4 : Int.tmod 4 8 = 4 := by decide

@[simp] theorem tmodL5 : Int.tmod 5 8 = 5 := by decide

@[simp] theorem tmodL6 : Int.tmod 6 8 = 6 := by decide

@[simp] theorem tmodL7 : Int.tmod 7 8 = 7 := by decide

@[simp] theorem tmodL8 : Int.tmod 8 8 = 0 := by decide

@[simp] theorem tdivL0 : Int.tdiv 0 2 = 0 := by decide

@[simp] theorem tdivL1 : Int.tdiv 1 2 = 0 := by decide

@[simp] theorem tdivL2 : Int.tdiv 2 2 = 1 := by decide

@[simp] theorem tdivL3 : Int.tdiv 3 2 = 1 := by decide

@[simp] theorem tdivL4 : Int.tdiv 4 2 = 2 := by decide

@[simp] theorem tdivL5 : Int.tdiv 5 2 = 2 := by decide

@[simp] theorem tdivL6 : Int.tdiv 6 2 = 3 := by decide

@[simp] theorem tdivL7 : Int.tdiv 7 2 = 3 := by decide

@[simp] theorem tdivLneg1 : Int.tdiv (-1) 2 = 0 := by decide

@[simp] theorem toNatL2 : Int.toNat 2 = 2 := by decide

@[simp] theorem toNatL3 : Int.toNat 3 = 3 := by decide

theorem qsize_isEmpty_false (z : QSize) : z.isEmpty = false ↔ 1 ≤ z.w ∧ 1 ≤ z.h := by
  unfold QSize.isEmpty
  simp only [Bool.or_eq_false_iff, decide_eq_false_iff_not]
  omega

theorem isValid_iff (s : SharedState) :
    s.isValid = true ↔ 0 < s.framesCount ∧ 0 < s.frameRate ∧ s.size.isEmpty = false := by
  unfold SharedState.isValid
  simp only [Bool.and_eq_true, Bool.not_eq_true', decide_eq_true_eq]
  tauto

theorem request_size_not_empty (r : FrameRequest) (z : QSize) :
    (r.size z).isEmpty = false := by
  unfold FrameRequest.size
  rw [qsize_isEmpty_false]
  constructor <;> simp

theorem createFrameStorage_not_null (z : QSize) (h : z.isEmpty = false) :
    (CreateFrameStorage z).isNull = false := by
  unfold CreateFrameStorage
  simp [h]

theorem goodStorage_not_null (img : QImage) (z : QSize)
    (h : GoodStorageForFrame img z = true) : img.isNull = false := by
  unfold GoodStorageForFrame at h
  simp only [Bool.and_eq_true, Bool.not_eq_true'] at h
  exact h.1.1.1

theorem renderFrame_not_null (s : SharedState) (img : QImage) (req : FrameRequest)
    (i : Int) (hv : s.isValid = true) : (s.renderFrame img req i).isNull = false := by
  rw [SharedState.renderFrame]
  simp only [hv, Bool.not_true, Bool.false_eq_true, if_false]
  by_cases hbox : req.box.isEmpty = true
  · simp only [hbox, if_true]
    by_cases hg : GoodStorageForFrame img s.size = true
    · simp [hg]
      exact goodStorage_not_null img s.size hg
    · simp [hg]
      exact createFrameStorage_not_null _ ((isValid_iff s).mp hv).2.2
  · simp only [hbox, Bool.false_eq_true, if_false]
    by_cases hg : GoodStorageForFrame img (req.size s.size) = true
    · simp [hg]
      exact goodStorage_not_null _ _ hg
    · simp [hg]
      exact createFrameStorage_not_null _ (request_size_not_empty req s.size)

theorem pfr_snd_displayed (f : Frame) (u : Bool) :
    ((PrepareFrameByRequest f u).2).displayed = f.displayed := by
  unfold PrepareFrameByRequest
  split
  · rfl
  · split <;> rfl

theorem pfr_snd_original (f : Frame) (u : Bool) :
    ((PrepareFrameByRequest f u).2).original = f.original := by
  unfold PrepareFrameByRequest
  split
  · rfl
  · split <;> rfl

theorem pfr_snd_index (f : Frame) (u : Bool) :
    ((PrepareFrameByRequest f u).2).index = f.index := by
  unfold PrepareFrameByRequest
  split
  · rfl
  · split <;> rfl

theorem pfr_snd_display (f : Frame) (u : Bool) :
    ((PrepareFrameByRequest f u).2).display = f.display := by
  unfold PrepareFrameByRequest
  split
  · rfl
  · split <;> rfl

theorem pfr_snd_request (f : Frame) (u : Bool) :
    ((PrepareFrameByRequest f u).2).request = f.request := by
  unfold PrepareFrameByRequest
  split
  · rfl
  · split <;> rfl

theorem inv_render_c0 (s s' : SharedState) (req : FrameRequest) (r : RenderResult)
    (h : Inv s) (hc : s.counter = 0)
    (hs : s.renderNextFrame req = some (s', r)) :
    Inv s' ∧ s'.started = s.started ∧ s'.delay = s.delay ∧
      s'.skippedFrames = s.skippedFrames ∧ s'.frameRate = s.frameRate ∧
      Nval s ≤ Nval s' ∧
      (s'.counter = s.counter ∨ s'.counter = Int.tmod (s.counter + 1) (2 * kFramesCount)) := by
  obtain ⟨hb, hcase⟩ := h
  obtain ⟨hr, hn, hsz, hst, hd, hsk, hfi, hi0, hi1, hi2, hi3⟩ := hb
  rw [hc] at hcase
  norm_num at hcase
  norm_num [InvEven, slotRendered, slotShown, slotIdx, slotNonNull,
    SharedState.getFrame] at hcase
  obtain ⟨e1, e2, e3, e4, e5, e6, e7⟩ := hcase
  have hvalid : s.isValid = true := by
    rw [isValid_iff]
    exact ⟨by omega, by omega, hsz⟩
  rw [SharedState.renderNextFrame] at hs
  norm_num [hc, kFramesCount] at hs
  by_cases hR : IsRendered (s.getFrame 1) = true
  · simp only [hR, Bool.true_eq_false, if_false] at hs
    obtain ⟨hX, hR2⟩ := hs
    subst hX
    rw [IsRendered] at hR
    simp only [SharedState.getFrame, beq_iff_eq] at hR
    refine ⟨⟨?_, ?_⟩, ?_, ?_, ?_, ?_, ?_, ?_⟩
    · norm_num [InvBase, SharedState.setFrame, SharedState.getFrame]
      repeat' apply And.intro
      all_goals first
        | exact hsz
        | assumption
        | omega
    · norm_num [Inv, SharedState.setFrame, SharedState.getFrame]
      norm_num [InvOdd, slotRendered, slotShown, slotIdx, slotNonNull,
        SharedState.getFrame, SharedState.setFrame, SharedState.countFrameDisplayTime]
      refine ⟨e1, e2, ?_, (e5 hR).2, ?_, ?_, ?_⟩
      · exact (e5 hR).1
      · intro h2
        exact e6 h2
      · intro h3
        exact absurd h3 (by simp [e3])
      · rw [e7]
        by_cases h2 : s.f2.displayed = kTimeUnknown
        · simp [h2, hR, e3]
        · simp [h2, hR, e3]
    · norm_num [SharedState.setFrame]
    · norm_num [SharedState.setFrame]
    · norm_num [SharedState.setFrame]
    · norm_num [SharedState.setFrame]
    · norm_num [Nval, slotIdx, SharedState.setFrame, SharedState.getFrame, hc]
      omega
    · right
      norm_num [SharedState.setFrame, hc]
  · rw [Bool.not_eq_true] at hR
    simp only [hR, if_true] at hs
    obtain ⟨hX, hR2⟩ := hs
    subst hX
    have hnR1 : ¬ s.f1.displayed = kTimeUnknown := by
      simpa [IsRendered, SharedState.getFrame] using hR
    have hnR2 : ¬ s.f2.displayed = kTimeUnknown := fun h2 => hnR1 (e4 h2)
    simp only [hnR2, if_false, hnR1] at e7
    refine ⟨⟨?_, ?_⟩, ?_, ?_, ?_, ?_, ?_, ?_⟩
    · norm_num [InvBase, SharedState.renderNextFrameInto, SharedState.setFrame,
        SharedState.getFrame, pfr_snd_index]
      repeat' apply And.intro
      all_goals first
        | exact hsz
        | assumption
        | omega
    · norm_num [Inv, SharedState.renderNextFrameInto, SharedState.setFrame,
        SharedState.getFrame]
      norm_num [InvOdd, slotRendered, slotShown, slotIdx, slotNonNull,
        SharedState.getFrame, SharedState.setFrame, SharedState.countFrameDisplayTime,
        pfr_snd_index, pfr_snd_original, pfr_snd_displayed]
      refine ⟨e1, e2, by omega, ?_, ?_, ?_, ?_⟩
      · exact renderFrame_not_null s _ req _ hvalid
      · intro h2
        exact absurd h2 hnR2
      · intro h3
        exact absurd h3 e3
      · simp [e3, hnR2]
    · norm_num [SharedState.renderNextFrameInto, SharedState.setFrame]
    · norm_num [SharedState.renderNextFrameInto, SharedState.setFrame]
    · norm_num [SharedState.renderNextFrameInto, SharedState.setFrame]
    · norm_num [SharedState.renderNextFrameInto, SharedState.setFrame]
    · norm_num [Nval, slotIdx, SharedState.renderNextFrameInto, SharedState.setFrame,
        SharedState.getFrame, hc, pfr_snd_index]
      omega
    · right
      norm_num [SharedState.renderNextFrameInto, SharedState.setFrame, hc]

theorem inv_render_c2 (s s' : SharedState) (req : FrameRequest) (r : RenderResult)
    (h : Inv s) (hc : s.counter = 2)
    (hs : s.renderNextFrame req = some (s', r)) :
    Inv s' ∧ s'.started = s.started ∧ s'.delay = s.delay ∧
      s'.skippedFrames = s.skippedFrames ∧ s'.frameRate = s.frameRate ∧
      Nval s ≤ Nval s' ∧
      (s'.counter = s.counter ∨ s'.counter = Int.tmod (s.counter + 1) (2 * kFramesCount)) := by
  obtain ⟨hb, hcase⟩ := h
  obtain ⟨hr, hn, hsz, hst, hd, hsk, hfi, hi0, hi1, hi2, hi3⟩ := hb
  rw [hc] at hcase
  norm_num at hcase
  norm_num [InvEven, slotRendered, slotShown, slotIdx, slotNonNull,
    SharedState.getFrame] at hcase
  obtain ⟨e1, e2, e3, e4, e5, e6, e7⟩ := hcase
  have hvalid : s.isValid = true := by
    rw [isValid_iff]
    exact ⟨by omega, by omega, hsz⟩
  rw [SharedState.renderNextFrame] at hs
  norm_num [hc, kFramesCount] at hs
  by_cases hR : IsRendered (s.getFrame 2) = true
  · simp only [hR, Bool.true_eq_false, if_false] at hs
    obtain ⟨hX, hR2⟩ := hs
    subst hX
    rw [IsRendered] at hR
    simp only [SharedState.getFrame, beq_iff_eq] at hR
    refine ⟨⟨?_, ?_⟩, ?_, ?_, ?_, ?_, ?_, ?_⟩
    · norm_num [InvBase, SharedState.setFrame, SharedState.getFrame]
      repeat' apply And.intro
      all_goals first
        | exact hsz
        | assumption
        | omega
    · norm_num [Inv, SharedState.setFrame, SharedState.getFrame]
      norm_num [InvOdd, slotRendered, slotShown, slotIdx, slotNonNull,
        SharedState.getFrame, SharedState.setFrame, SharedState.countFrameDisplayTime]
      refine ⟨e1, e2, ?_, (e5 hR).2, ?_, ?_, ?_⟩
      · exact (e5 hR).1
      · intro h2
        exact e6 h2
      · intro h3
        exact absurd h3 (by simp [e3])
      · rw [e7]
        by_cases h2 : s.f3.displayed = kTimeUnknown
        · simp [h2, hR, e3]
        · simp [h2, hR, e3]
    · norm_num [SharedState.setFrame]
    · norm_num [SharedState.setFrame]
    · norm_num [SharedState.setFrame]
    · norm_num [SharedState.setFrame]
    · norm_num [Nval, slotIdx, SharedState.setFrame, SharedState.getFrame, hc]
      omega
    · right
      norm_num [SharedState.setFrame, hc]
  · rw [Bool.not_eq_true] at hR
    simp only [hR, if_true] at hs
    obtain ⟨hX, hR2⟩ := hs
    subst hX
    have hnR1 : ¬ s.f2.displayed = kTimeUnknown := by
      simpa [IsRendered, SharedState.getFrame] using hR
    have hnR2 : ¬ s.f3.displayed = kTimeUnknown := fun h2 => hnR1 (e4 h2)
    simp only [hnR2, if_false, hnR1] at e7
    refine ⟨⟨?_, ?_⟩, ?_, ?_, ?_, ?_, ?_, ?_⟩
    · norm_num [InvBase, SharedState.renderNextFrameInto, SharedState.setFrame,
        SharedState.getFrame, pfr_snd_index]
      repeat' apply And.intro
      all_goals first
        | exact hsz
        | assumption
        | omega
    · norm_num [Inv, SharedState.renderNextFrameInto, SharedState.setFrame,
        SharedState.getFrame]
      norm_num [InvOdd, slotRendered, slotShown, slotIdx, slotNonNull,
        SharedState.getFrame, SharedState.setFrame, SharedState.countFrameDisplayTime,
        pfr_snd_index, pfr_snd_original, pfr_snd_displayed]
      refine ⟨e1, e2, by omega, ?_, ?_, ?_, ?_⟩
      · exact renderFrame_not_null s _ req _ hvalid
      · intro h2
        exact absurd h2 hnR2
      · intro h3
        exact absurd h3 e3
      · simp [e3, hnR2]
    · norm_num [SharedState.renderNextFrameInto, SharedState.setFrame]
    · norm_num [SharedState.renderNextFrameInto, SharedState.setFrame]
    · norm_num [SharedState.renderNextFrameInto, SharedState.setFrame]
    · norm_num [SharedState.renderNextFrameInto, SharedState.setFrame]
    · norm_num [Nval, slotIdx, SharedState.renderNextFrameInto, SharedState.setFrame,
        SharedState.getFrame, hc, pfr_snd_index]
      omega
    · right
      norm_num [SharedState.renderNextFrameInto, SharedState.setFrame, hc]

theorem inv_render_c4 (s s' : SharedState) (req : FrameRequest) (r : RenderResult)
    (h : Inv s) (hc : s.counter = 4)
    (hs : s.renderNextFrame req = some (s', r)) :
    Inv s' ∧ s'.started = s.started ∧ s'.delay = s.delay ∧
      s'.skippedFrames = s.skippedFrames ∧ s'.frameRate = s.frameRate ∧
      Nval s ≤ Nval s' ∧
      (s'.counter = s.counter ∨ s'.counter = Int.tmod (s.counter + 1) (2 * kFramesCount)) := by
  obtain ⟨hb, hcase⟩ := h
  obtain ⟨hr, hn, hsz, hst, hd, hsk, hfi, hi0, hi1, hi2, hi3⟩ := hb
  rw [hc] at hcase
  norm_num at hcase
  norm_num [InvEven, slotRendered, slotShown, slotIdx, slotNonNull,
    SharedState.getFrame] at hcase
  obtain ⟨e1, e2, e3, e4, e5, e6, e7⟩ := hcase
  have hvalid : s.isValid = true := by
    rw [isValid_iff]
    exact ⟨by omega, by omega, hsz⟩
  rw [SharedState.renderNextFrame] at hs
  norm_num [hc, kFramesCount] at hs
  by_cases hR : IsRendered (s.getFrame 3) = true
  · simp only [hR, Bool.true_eq_false, if_false] at hs
    obtain ⟨hX, hR2⟩ := hs
    subst hX
    rw [IsRendered] at hR
    simp only [SharedState.getFrame, beq_iff_eq] at hR
    refine ⟨⟨?_, ?_⟩, ?_, ?_, ?_, ?_, ?_, ?_⟩
    · norm_num [InvBase, SharedState.setFrame, SharedState.getFrame]
      repeat' apply And.intro
      all_goals first
        | exact hsz
        | assumption
        | omega
    · norm_num [Inv, SharedState.setFrame, SharedState.getFrame]
      norm_num [InvOdd, slotRendered, slotShown, slotIdx, slotNonNull,
        SharedState.getFrame, SharedState.setFrame, SharedState.countFrameDisplayTime]
      refine ⟨e1, e2, ?_, (e5 hR).2, ?_, ?_, ?_⟩
      · exact (e5 hR).1
      · intro h2
        exact e6 h2
      · intro h3
        exact absurd h3 (by simp [e3])
      · rw [e7]
        by_cases h2 : s.f0.displayed = kTimeUnknown
        · simp [h2, hR, e3]
        · simp [h2, hR, e3]
    · norm_num [SharedState.setFrame]
    · norm_num [SharedState.setFrame]
    · norm_num [SharedState.setFrame]
    · norm_num [SharedState.setFrame]
    · norm_num [Nval, slotIdx, SharedState.setFrame, SharedState.getFrame, hc]
      omega
    · right
      norm_num [SharedState.setFrame, hc]
  · rw [Bool.not_eq_true] at hR
    simp only [hR, if_true] at hs
    obtain ⟨hX, hR2⟩ := hs
    subst hX
    have hnR1 : ¬ s.f3.displayed = kTimeUnknown := by
      simpa [IsRendered, SharedState.getFrame] using hR
    have hnR2 : ¬ s.f0.displayed = kTimeUnknown := fun h2 => hnR1 (e4 h2)
    simp only [hnR2, if_false, hnR1] at e7
    refine ⟨⟨?_, ?_⟩, ?_, ?_, ?_, ?_, ?_, ?_⟩
    · norm_num [InvBase, SharedState.renderNextFrameInto, SharedState.setFrame,
        SharedState.getFrame, pfr_snd_index]
      repeat' apply And.intro
      all_goals first
        | exact hsz
        | assumption
        | omega
    · norm_num [Inv, SharedState.renderNextFrameInto, SharedState.setFrame,
        SharedState.getFrame]
      norm_num [InvOdd, slotRendered, slotShown, slotIdx, slotNonNull,
        SharedState.getFrame, SharedState.setFrame, SharedState.countFrameDisplayTime,
        pfr_snd_index, pfr_snd_original, pfr_snd_displayed]
      refine ⟨e1, e2, by omega, ?_, ?_, ?_, ?_⟩
      · exact renderFrame_not_null s _ req _ hvalid
      · intro h2
        exact absurd h2 hnR2
      · intro h3
        exact absurd h3 e3
      · simp [e3, hnR2]
    · norm_num [SharedState.renderNextFrameInto, SharedState.setFrame]
    · norm_num [SharedState.renderNextFrameInto, SharedState.setFrame]
    · norm_num [SharedState.renderNextFrameInto, SharedState.setFrame]
    · norm_num [SharedState.renderNextFrameInto, SharedState.setFrame]
    · norm_num [Nval, slotIdx, SharedState.renderNextFrameInto, SharedState.setFrame,
        SharedState.getFrame, hc, pfr_snd_index]
      omega
    · right
      norm_num [SharedState.renderNextFrameInto, SharedState.setFrame, hc]

theorem inv_render_c6 (s s' : SharedState) (req : FrameRequest) (r : RenderResult)
    (h : Inv s) (hc : s.counter = 6)
    (hs : s.renderNextFrame req = some (s', r)) :
    Inv s' ∧ s'.started = s.started ∧ s'.delay = s.delay ∧
      s'.skippedFrames = s.skippedFrames ∧ s'.frameRate = s.frameRate ∧
      Nval s ≤ Nval s' ∧
      (s'.counter = s.counter ∨ s'.counter = Int.tmod (s.counter + 1) (2 * kFramesCount)) := by
  obtain ⟨hb, hcase⟩ := h
  obtain ⟨hr, hn, hsz, hst, hd, hsk, hfi, hi0, hi1, hi2, hi3⟩ := hb
  rw [hc] at hcase
  norm_num at hcase
  norm_num [InvEven, slotRendered, slotShown, slotIdx, slotNonNull,
    SharedState.getFrame] at hcase
  obtain ⟨e1, e2, e3, e4, e5, e6, e7⟩ := hcase
  have hvalid : s.isValid = true := by
    rw [isValid_iff]
    exact ⟨by omega, by omega, hsz⟩
  rw [SharedState.renderNextFrame] at hs
  norm_num [hc, kFramesCount] at hs
  by_cases hR : IsRendered (s.getFrame 0) = true
  · simp only [hR, Bool.true_eq_false, if_false] at hs
    obtain ⟨hX, hR2⟩ := hs
    subst hX
    rw [IsRendered] at hR
    simp only [SharedState.getFrame, beq_iff_eq] at hR
    refine ⟨⟨?_, ?_⟩, ?_, ?_, ?_, ?_, ?_, ?_⟩
    · norm_num [InvBase, SharedState.setFrame, SharedState.getFrame]
      repeat' apply And.intro
      all_goals first
        | exact hsz
        | assumption
        | omega
    · norm_num [Inv, SharedState.setFrame, SharedState.getFrame]
      norm_num [InvOdd, slotRendered, slotShown, slotIdx, slotNonNull,
        SharedState.getFrame, SharedState.setFrame, SharedState.countFrameDisplayTime]
      refine ⟨e1, e2, ?_, (e5 hR).2, ?_, ?_, ?_⟩
      · exact (e5 hR).1
      · intro h2
        exact e6 h2
      · intro h3
        exact absurd h3 (by simp [e3])
      · rw [e7]
        by_cases h2 : s.f1.displayed = kTimeUnknown
        · simp [h2, hR, e3]
        · simp [h2, hR, e3]
    · norm_num [SharedState.setFrame]
    · norm_num [SharedState.setFrame]
    · norm_num [SharedState.setFrame]
    · norm_num [SharedState.setFrame]
    · norm_num [Nval, slotIdx, SharedState.setFrame, SharedState.getFrame, hc]
      omega
    · right
      norm_num [SharedState.setFrame, hc]
  · rw [Bool.not_eq_true] at hR
    simp only [hR, if_true] at hs
    obtain ⟨hX, hR2⟩ := hs
    subst hX
    have hnR1 : ¬ s.f0.displayed = kTimeUnknown := by
      simpa [IsRendered, SharedState.getFrame] using hR
    have hnR2 : ¬ s.f1.displayed = kTimeUnknown := fun h2 => hnR1 (e4 h2)
    simp only [hnR2, if_false, hnR1] at e7
    refine ⟨⟨?_, ?_⟩, ?_, ?_, ?_, ?_, ?_, ?_⟩
    · norm_num [InvBase, SharedState.renderNextFrameInto, SharedState.setFrame,
        SharedState.getFrame, pfr_snd_index]
      repeat' apply And.intro
      all_goals first
        | exact hsz
        | assumption
        | omega
    · norm_num [Inv, SharedState.renderNextFrameInto, SharedState.setFrame,
        SharedState.getFrame]
      norm_num [InvOdd, slotRendered, slotShown, slotIdx, slotNonNull,
        SharedState.getFrame, SharedState.setFrame, SharedState.countFrameDisplayTime,
        pfr_snd_index, pfr_snd_original, pfr_snd_displayed]
      refine ⟨e1, e2, by omega, ?_, ?_, ?_, ?_⟩
      · exact renderFrame_not_null s _ req _ hvalid
      · intro h2
        exact absurd h2 hnR2
      · intro h3
        exact absurd h3 e3
      · simp [e3, hnR2]
    · norm_num [SharedState.renderNextFrameInto, SharedState.setFrame]
    · norm_num [SharedState.renderNextFrameInto, SharedState.setFrame]
    · norm_num [SharedState.renderNextFrameInto, SharedState.setFrame]
    · norm_num [SharedState.renderNextFrameInto, SharedState.setFrame]
    · norm_num [Nval, slotIdx, SharedState.renderNextFrameInto, SharedState.setFrame,
        SharedState.getFrame, hc, pfr_snd_index]
      omega
    · right
      norm_num [SharedState.renderNextFrameInto, SharedState.setFrame, hc]

theorem inv_render_c1 (s s' : SharedState) (req : FrameRequest) (r : RenderResult)
    (h : Inv s) (hc : s.counter = 1)
    (hs : s.renderNextFrame req = some (s', r)) :
    Inv s' ∧ s'.started = s.started ∧ s'.delay = s.delay ∧
      s'.skippedFrames = s.skippedFrames ∧ s'.frameRate = s.frameRate ∧
      Nval s ≤ Nval s' ∧
      (s'.counter = s.counter ∨ s'.counter = Int.tmod (s.counter + 1) (2 * kFramesCount)) := by
  have hInv : Inv s := h
  obtain ⟨hb, hcase⟩ := h
  obtain ⟨hr, hn, hsz, hst, hd, hsk, hfi, hi0, hi1, hi2, hi3⟩ := hb
  rw [hc] at hcase
  norm_num at hcase
  norm_num [InvOdd, slotRendered, slotShown, slotIdx, slotNonNull,
    SharedState.getFrame, SharedState.countFrameDisplayTime] at hcase
  obtain ⟨o1, o2, o3, o4, o5, o6, o7, o8⟩ := hcase
  have hvalid : s.isValid = true := by
    rw [isValid_iff]
    exact ⟨by omega, by omega, hsz⟩
  rw [SharedState.renderNextFrame] at hs
  norm_num [hc, kFramesCount] at hs
  by_cases hRp : IsRendered (s.getFrame 2) = true
  · by_cases hRn : IsRendered (s.getFrame 3) = true
    · simp only [hRp, hRn, Bool.true_eq_false, if_false, Option.some.injEq,
        Prod.mk.injEq] at hs
      obtain ⟨hX, hR2⟩ := hs
      subst hX
      exact ⟨hInv, rfl, rfl, rfl, rfl, le_refl _, Or.inl rfl⟩
    · rw [Bool.not_eq_true] at hRn
      simp only [hRp, hRn, Bool.true_eq_false, if_false, if_true, Option.some.injEq,
        Prod.mk.injEq] at hs
      obtain ⟨hX, hR2⟩ := hs
      subst hX
      rw [IsRendered] at hRp
      simp only [SharedState.getFrame, beq_iff_eq] at hRp
      have hnRn : ¬ s.f3.displayed = kTimeUnknown := by
        simpa [IsRendered, SharedState.getFrame] using hRn
      simp only [hnRn, if_false, hRp, if_true] at o8
      refine ⟨⟨?_, ?_⟩, ?_, ?_, ?_, ?_, ?_, ?_⟩
      · norm_num [InvBase, SharedState.renderNextFrameInto, SharedState.setFrame,
          SharedState.getFrame, pfr_snd_index]
        repeat' apply And.intro
        all_goals first
          | exact hsz
          | assumption
          | omega
      · norm_num [Inv, SharedState.renderNextFrameInto, SharedState.setFrame,
          SharedState.getFrame, hc]
        norm_num [InvOdd, slotRendered, slotShown, slotIdx, slotNonNull,
          SharedState.getFrame, SharedState.setFrame, SharedState.countFrameDisplayTime,
          pfr_snd_index, pfr_snd_original, pfr_snd_displayed]
        exact ⟨o1, o2, o3, o4, o5, o6, hRp, by omega,
          renderFrame_not_null s _ req _ hvalid⟩
      · norm_num [SharedState.renderNextFrameInto, SharedState.setFrame]
      · norm_num [SharedState.renderNextFrameInto, SharedState.setFrame]
      · norm_num [SharedState.renderNextFrameInto, SharedState.setFrame]
      · norm_num [SharedState.renderNextFrameInto, SharedState.setFrame]
      · norm_num [Nval, slotIdx, SharedState.renderNextFrameInto, SharedState.setFrame,
          SharedState.getFrame, hc, pfr_snd_index]
      · exact Or.inl rfl
  · rw [Bool.not_eq_true] at hRp
    simp only [hRp, if_true, Option.some.injEq, Prod.mk.injEq] at hs
    obtain ⟨hX, hR2⟩ := hs
    subst hX
    have hnRp : ¬ s.f2.displayed = kTimeUnknown := by
      simpa [IsRendered, SharedState.getFrame] using hRp
    have hnRn : ¬ s.f3.displayed = kTimeUnknown := fun h3 => hnRp (o7 h3).1
    simp only [hnRp, hnRn, if_false] at o8
    refine ⟨⟨?_, ?_⟩, ?_, ?_, ?_, ?_, ?_, ?_⟩
    · norm_num [InvBase, SharedState.renderNextFrameInto, SharedState.setFrame,
        SharedState.getFrame, pfr_snd_index]
      repeat' apply And.intro
      all_goals first
        | exact hsz
        | assumption
        | omega
    · norm_num [Inv, SharedState.renderNextFrameInto, SharedState.setFrame,
        SharedState.getFrame, hc]
      norm_num [InvOdd, slotRendered, slotShown, slotIdx, slotNonNull,
        SharedState.getFrame, SharedState.setFrame, SharedState.countFrameDisplayTime,
        pfr_snd_index, pfr_snd_original, pfr_snd_displayed]
      refine ⟨o1, o2, o3, o4, o5, ⟨by omega, ?_⟩, fun h3 => absurd h3 hnRn, by simp [hnRn]⟩
      exact renderFrame_not_null s _ req _ hvalid
    · norm_num [SharedState.renderNextFrameInto, SharedState.setFrame]
    · norm_num [SharedState.renderNextFrameInto, SharedState.setFrame]
    · norm_num [SharedState.renderNextFrameInto, SharedState.setFrame]
    · norm_num [SharedState.renderNextFrameInto, SharedState.setFrame]
    · norm_num [Nval, slotIdx, SharedState.renderNextFrameInto, SharedState.setFrame,
        SharedState.getFrame, hc, pfr_snd_index]
    · exact Or.inl rfl

theorem inv_render_c3 (s s' : SharedState) (req : FrameRequest) (r : RenderResult)
    (h : Inv s) (hc : s.counter = 3)
    (hs : s.renderNextFrame req = some (s', r)) :
    Inv s' ∧ s'.started = s.started ∧ s'.delay = s.delay ∧
      s'.skippedFrames = s.skippedFrames ∧ s'.frameRate = s.frameRate ∧
      Nval s ≤ Nval s' ∧
      (s'.counter = s.counter ∨ s'.counter = Int.tmod (s.counter + 1) (2 * kFramesCount)) := by
  have hInv : Inv s := h
  obtain ⟨hb, hcase⟩ := h
  obtain ⟨hr, hn, hsz, hst, hd, hsk, hfi, hi0, hi1, hi2, hi3⟩ := hb
  rw [hc] at hcase
  norm_num at hcase
  norm_num [InvOdd, slotRendered, slotShown, slotIdx, slotNonNull,
    SharedState.getFrame, SharedState.countFrameDisplayTime] at hcase
  obtain ⟨o1, o2, o3, o4, o5, o6, o7, o8⟩ := hcase
  have hvalid : s.isValid = true := by
    rw [isValid_iff]
    exact ⟨by omega, by omega, hsz⟩
  rw [SharedState.renderNextFrame] at hs
  norm_num [hc, kFramesCount] at hs
  by_cases hRp : IsRendered (s.getFrame 3) = true
  · by_cases hRn : IsRendered (s.getFrame 0) = true
    · simp only [hRp, hRn, Bool.true_eq_false, if_false, Option.some.injEq,
        Prod.mk.injEq] at hs
      obtain ⟨hX, hR2⟩ := hs
      subst hX
      exact ⟨hInv, rfl, rfl, rfl, rfl, le_refl _, Or.inl rfl⟩
    · rw [Bool.not_eq_true] at hRn
      simp only [hRp, hRn, Bool.true_eq_false, if_false, if_true, Option.some.injEq,
        Prod.mk.injEq] at hs
      obtain ⟨hX, hR2⟩ := hs
      subst hX
      rw [IsRendered] at hRp
      simp only [SharedState.getFrame, beq_iff_eq] at hRp
      have hnRn : ¬ s.f0.displayed = kTimeUnknown := by
        simpa [IsRendered, SharedState.getFrame] using hRn
      simp only [hnRn, if_false, hRp, if_true] at o8
      refine ⟨⟨?_, ?_⟩, ?_, ?_, ?_, ?_, ?_, ?_⟩
      · norm_num [InvBase, SharedState.renderNextFrameInto, SharedState.setFrame,
          SharedState.getFrame, pfr_snd_index]
        repeat' apply And.intro
        all_goals first
          | exact hsz
          | assumption
          | omega
      · norm_num [Inv, SharedState.renderNextFrameInto, SharedState.setFrame,
          SharedState.getFrame, hc]
        norm_num [InvOdd, slotRendered, slotShown, slotIdx, slotNonNull,
          SharedState.getFrame, SharedState.setFrame, SharedState.countFrameDisplayTime,
          pfr_snd_index, pfr_snd_original, pfr_snd_displayed]
        exact ⟨o1, o2, o3, o4, o5, o6, hRp, by omega,
          renderFrame_not_null s _ req _ hvalid⟩
      · norm_num [SharedState.renderNextFrameInto, SharedState.setFrame]
      · norm_num [SharedState.renderNextFrameInto, SharedState.setFrame]
      · norm_num [SharedState.renderNextFrameInto, SharedState.setFrame]
      · norm_num [SharedState.renderNextFrameInto, SharedState.setFrame]
      · norm_num [Nval, slotIdx, SharedState.renderNextFrameInto, SharedState.setFrame,
          SharedState.getFrame, hc, pfr_snd_index]
      · exact Or.inl rfl
  · rw [Bool.not_eq_true] at hRp
    simp only [hRp, if_true, Option.some.injEq, Prod.mk.injEq] at hs
    obtain ⟨hX, hR2⟩ := hs
    subst hX
    have hnRp : ¬ s.f3.displayed = kTimeUnknown := by
      simpa [IsRendered, SharedState.getFrame] using hRp
    have hnRn : ¬ s.f0.displayed = kTimeUnknown := fun h3 => hnRp (o7 h3).1
    simp only [hnRp, hnRn, if_false] at o8
    refine ⟨⟨?_, ?_⟩, ?_, ?_, ?_, ?_, ?_, ?_⟩
    · norm_num [InvBase, SharedState.renderNextFrameInto, SharedState.setFrame,
        SharedState.getFrame, pfr_snd_index]
      repeat' apply And.intro
      all_goals first
        | exact hsz
        | assumption
        | omega
    · norm_num [Inv, SharedState.renderNextFrameInto, SharedState.setFrame,
        SharedState.getFrame, hc]
      norm_num [InvOdd, slotRendered, slotShown, slotIdx, slotNonNull,
        SharedState.getFrame, SharedState.setFrame, SharedState.countFrameDisplayTime,
        pfr_snd_index, pfr_snd_original, pfr_snd_displayed]
      refine ⟨o1, o2, o3, o4, o5, ⟨by omega, ?_⟩, fun h3 => absurd h3 hnRn, by simp [hnRn]⟩
      exact renderFrame_not_null s _ req _ hvalid
    · norm_num [SharedState.renderNextFrameInto, SharedState.setFrame]
    · norm_num [SharedState.renderNextFrameInto, SharedState.setFrame]
    · norm_num [SharedState.renderNextFrameInto, SharedState.setFrame]
    · norm_num [SharedState.renderNextFrameInto, SharedState.setFrame]
    · norm_num [Nval, slotIdx, SharedState.renderNextFrameInto, SharedState.setFrame,
        SharedState.getFrame, hc, pfr_snd_index]
    · exact Or.inl rfl

theorem inv_render_c5 (s s' : SharedState) (req : FrameRequest) (r : RenderResult)
    (h : Inv s) (hc : s.counter = 5)
    (hs : s.renderNextFrame req = some (s', r)) :
    Inv s' ∧ s'.started = s.started ∧ s'.delay = s.delay ∧
      s'.skippedFrames = s.skippedFrames ∧ s'.frameRate = s.frameRate ∧
      Nval s ≤ Nval s' ∧
      (s'.counter = s.counter ∨ s'.counter = Int.tmod (s.counter + 1) (2 * kFramesCount)) := by
  have hInv : Inv s := h
  obtain ⟨hb, hcase⟩ := h
  obtain ⟨hr, hn, hsz, hst, hd, hsk, hfi, hi0, hi1, hi2, hi3⟩ := hb
  rw [hc] at hcase
  norm_num at hcase
  norm_num [InvOdd, slotRendered, slotShown, slotIdx, slotNonNull,
    SharedState.getFrame, SharedState.countFrameDisplayTime] at hcase
  obtain ⟨o1, o2, o3, o4, o5, o6, o7, o8⟩ := hcase
  have hvalid : s.isValid = true := by
    rw [isValid_iff]
    exact ⟨by omega, by omega, hsz⟩
  rw [SharedState.renderNextFrame] at hs
  norm_num [hc, kFramesCount] at hs
  by_cases hRp : IsRendered (s.getFrame 0) = true
  · by_cases hRn : IsRendered (s.getFrame 1) = true
    · simp only [hRp, hRn, Bool.true_eq_false, if_false, Option.some.injEq,
        Prod.mk.injEq] at hs
      obtain ⟨hX, hR2⟩ := hs
      subst hX
      exact ⟨hInv, rfl, rfl, rfl, rfl, le_refl _, Or.inl rfl⟩
    · rw [Bool.not_eq_true] at hRn
      simp only [hRp, hRn, Bool.true_eq_false, if_false, if_true, Option.some.injEq,
        Prod.mk.injEq] at hs
      obtain ⟨hX, hR2⟩ := hs
      subst hX
      rw [IsRendered] at hRp
      simp only [SharedState.getFrame, beq_iff_eq] at hRp
      have hnRn : ¬ s.f1.displayed = kTimeUnknown := by
        simpa [IsRendered, SharedState.getFrame] using hRn
      simp only [hnRn, if_false, hRp, if_true] at o8
      refine ⟨⟨?_, ?_⟩, ?_, ?_, ?_, ?_, ?_, ?_⟩
      · norm_num [InvBase, SharedState.renderNextFrameInto, SharedState.setFrame,
          SharedState.getFrame, pfr_snd_index]
        repeat' apply And.intro
        all_goals first
          | exact hsz
          | assumption
          | omega
      · norm_num [Inv, SharedState.renderNextFrameInto, SharedState.setFrame,
          SharedState.getFrame, hc]
        norm_num [InvOdd, slotRendered, slotShown, slotIdx, slotNonNull,
          SharedState.getFrame, SharedState.setFrame, SharedState.countFrameDisplayTime,
          pfr_snd_index, pfr_snd_original, pfr_snd_displayed]
        exact ⟨o1, o2, o3, o4, o5, o6, hRp, by omega,
          renderFrame_not_null s _ req _ hvalid⟩
      · norm_num [SharedState.renderNextFrameInto, SharedState.setFrame]
      · norm_num [SharedState.renderNextFrameInto, SharedState.setFrame]
      · norm_num [SharedState.renderNextFrameInto, SharedState.setFrame]
      · norm_num [SharedState.renderNextFrameInto, SharedState.setFrame]
      · norm_num [Nval, slotIdx, SharedState.renderNextFrameInto, SharedState.setFrame,
          SharedState.getFrame, hc, pfr_snd_index]
      · exact Or.inl rfl
  · rw [Bool.not_eq_true] at hRp
    simp only [hRp, if_true, Option.some.injEq, Prod.mk.injEq] at hs
    obtain ⟨hX, hR2⟩ := hs
    subst hX
    have hnRp : ¬ s.f0.displayed = kTimeUnknown := by
      simpa [IsRendered, SharedState.getFrame] using hRp
    have hnRn : ¬ s.f1.displayed = kTimeUnknown := fun h3 => hnRp (o7 h3).1
    simp only [hnRp, hnRn, if_false] at o8
    refine ⟨⟨?_, ?_⟩, ?_, ?_, ?_, ?_, ?_, ?_⟩
    · norm_num [InvBase, SharedState.renderNextFrameInto, SharedState.setFrame,
        SharedState.getFrame, pfr_snd_index]
      repeat' apply And.intro
      all_goals first
        | exact hsz
        | assumption
        | omega
    · norm_num [Inv, SharedState.renderNextFrameInto, SharedState.setFrame,
        SharedState.getFrame, hc]
      norm_num [InvOdd, slotRendered, slotShown, slotIdx, slotNonNull,
        SharedState.getFrame, SharedState.setFrame, SharedState.countFrameDisplayTime,
        pfr_snd_index, pfr_snd_original, pfr_snd_displayed]
      refine ⟨o1, o2, o3, o4, o5, ⟨by omega, ?_⟩, fun h3 => absurd h3 hnRn, by simp [hnRn]⟩
      exact renderFrame_not_null s _ req _ hvalid
    · norm_num [SharedState.renderNextFrameInto, SharedState.setFrame]
    · norm_num [SharedState.renderNextFrameInto, SharedState.setFrame]
    · norm_num [SharedState.renderNextFrameInto, SharedState.setFrame]
    · norm_num [SharedState.renderNextFrameInto, SharedState.setFrame]
    · norm_num [Nval, slotIdx, SharedState.renderNextFrameInto, SharedState.setFrame,
        SharedState.getFrame, hc, pfr_snd_index]
    · exact Or.inl rfl

theorem inv_render_c7 (s s' : SharedState) (req : FrameRequest) (r : RenderResult)
    (h : Inv s) (hc : s.counter = 7)
    (hs : s.renderNextFrame req = some (s', r)) :
    Inv s' ∧ s'.started = s.started ∧ s'.delay = s.delay ∧
      s'.skippedFrames = s.skippedFrames ∧ s'.frameRate = s.frameRate ∧
      Nval s ≤ Nval s' ∧
      (s'.counter = s.counter ∨ s'.counter = Int.tmod (s.counter + 1) (2 * kFramesCount)) := by
  have hInv : Inv s := h
  obtain ⟨hb, hcase⟩ := h
  obtain ⟨hr, hn, hsz, hst, hd, hsk, hfi, hi0, hi1, hi2, hi3⟩ := hb
  rw [hc] at hcase
  norm_num at hcase
  norm_num [InvOdd, slotRendered, slotShown, slotIdx, slotNonNull,
    SharedState.getFrame, SharedState.countFrameDisplayTime] at hcase
  obtain ⟨o1, o2, o3, o4, o5, o6, o7, o8⟩ := hcase
  have hvalid : s.isValid = true := by
    rw [isValid_iff]
    exact ⟨by omega, by omega, hsz⟩
  rw [SharedState.renderNextFrame] at hs
  norm_num [hc, kFramesCount] at hs
  by_cases hRp : IsRendered (s.getFrame 1) = true
  · by_cases hRn : IsRendered (s.getFrame 2) = true
    · simp only [hRp, hRn, Bool.true_eq_false, if_false, Option.some.injEq,
        Prod.mk.injEq] at hs
      obtain ⟨hX, hR2⟩ := hs
      subst hX
      exact ⟨hInv, rfl, rfl, rfl, rfl, le_refl _, Or.inl rfl⟩
    · rw [Bool.not_eq_true] at hRn
      simp only [hRp, hRn, Bool.true_eq_false, if_false, if_true, Option.some.injEq,
        Prod.mk.injEq] at hs
      obtain ⟨hX, hR2⟩ := hs
      subst hX
      rw [IsRendered] at hRp
      simp only [SharedState.getFrame, beq_iff_eq] at hRp
      have hnRn : ¬ s.f2.displayed = kTimeUnknown := by
        simpa [IsRendered, SharedState.getFrame] using hRn
      simp only [hnRn, if_false, hRp, if_true] at o8
      refine ⟨⟨?_, ?_⟩, ?_, ?_, ?_, ?_, ?_, ?_⟩
      · norm_num [InvBase, SharedState.renderNextFrameInto, SharedState.setFrame,
          SharedState.getFrame, pfr_snd_index]
        repeat' apply And.intro
        all_goals first
          | exact hsz
          | assumption
          | omega
      · norm_num [Inv, SharedState.renderNextFrameInto, SharedState.setFrame,
          SharedState.getFrame, hc]
        norm_num [InvOdd, slotRendered, slotShown, slotIdx, slotNonNull,
          SharedState.getFrame, SharedState.setFrame, SharedState.countFrameDisplayTime,
          pfr_snd_index, pfr_snd_original, pfr_snd_displayed]
        exact ⟨o1, o2, o3, o4, o5, o6, hRp, by omega,
          renderFrame_not_null s _ req _ hvalid⟩
      · norm_num [SharedState.renderNextFrameInto, SharedState.setFrame]
      · norm_num [SharedState.renderNextFrameInto, SharedState.setFrame]
      · norm_num [SharedState.renderNextFrameInto, SharedState.setFrame]
      · norm_num [SharedState.renderNextFrameInto, SharedState.setFrame]
      · norm_num [Nval, slotIdx, SharedState.renderNextFrameInto, SharedState.setFrame,
          SharedState.getFrame, hc, pfr_snd_index]
      · exact Or.inl rfl
  · rw [Bool.not_eq_true] at hRp
    simp only [hRp, if_true, Option.some.injEq, Prod.mk.injEq] at hs
    obtain ⟨hX, hR2⟩ := hs
    subst hX
    have hnRp : ¬ s.f1.displayed = kTimeUnknown := by
      simpa [IsRendered, SharedState.getFrame] using hRp
    have hnRn : ¬ s.f2.displayed = kTimeUnknown := fun h3 => hnRp (o7 h3).1
    simp only [hnRp, hnRn, if_false] at o8
    refine ⟨⟨?_, ?_⟩, ?_, ?_, ?_, ?_, ?_, ?_⟩
    · norm_num [InvBase, SharedState.renderNextFrameInto, SharedState.setFrame,
        SharedState.getFrame, pfr_snd_index]
      repeat' apply And.intro
      all_goals first
        | exact hsz
        | assumption
        | omega
    · norm_num [Inv, SharedState.renderNextFrameInto, SharedState.setFrame,
        SharedState.getFrame, hc]
      norm_num [InvOdd, slotRendered, slotShown, slotIdx, slotNonNull,
        SharedState.getFrame, SharedState.setFrame, SharedState.countFrameDisplayTime,
        pfr_snd_index, pfr_snd_original, pfr_snd_displayed]
      refine ⟨o1, o2, o3, o4, o5, ⟨by omega, ?_⟩, fun h3 => absurd h3 hnRn, by simp [hnRn]⟩
      exact renderFrame_not_null s _ req _ hvalid
    · norm_num [SharedState.renderNextFrameInto, SharedState.setFrame]
    · norm_num [SharedState.renderNextFrameInto, SharedState.setFrame]
    · norm_num [SharedState.renderNextFrameInto, SharedState.setFrame]
    · norm_num [SharedState.renderNextFrameInto, SharedState.setFrame]
    · norm_num [Nval, slotIdx, SharedState.renderNextFrameInto, SharedState.setFrame,
        SharedState.getFrame, hc, pfr_snd_index]
    · exact Or.inl rfl

theorem inv_shown_c1 (s s' : SharedState) (b : Bool)
    (h : Inv s) (hc : s.counter = 1)
    (hs : s.markFrameShown = some (s', b)) :
    Inv s' ∧ s'.started = s.started ∧ s'.delay = s.delay ∧
      s'.skippedFrames = s.skippedFrames ∧ s'.frameRate = s.frameRate ∧
      Nval s ≤ Nval s' ∧
      (s'.counter = s.counter ∨ s'.counter = Int.tmod (s.counter + 1) (2 * kFramesCount)) := by
  have hInv : Inv s := h
  obtain ⟨hb, hcase⟩ := h
  obtain ⟨hr, hn, hsz, hst, hd, hsk, hfi, hi0, hi1, hi2, hi3⟩ := hb
  rw [hc] at hcase
  norm_num at hcase
  norm_num [InvOdd, slotRendered, slotShown, slotIdx, slotNonNull,
    SharedState.getFrame, SharedState.countFrameDisplayTime] at hcase
  obtain ⟨o1, o2, o3, o4, o5, o6, o7, o8⟩ := hcase
  rw [SharedState.markFrameShown] at hs
  norm_num [hc, kFramesCount] at hs
  by_cases hDq : s.f1.displayed = kTimeUnknown
  · simp only [SharedState.getFrame, hDq, if_true, Option.some.injEq, Prod.mk.injEq,
      beq_self_eq_true] at hs
    obtain ⟨hX, _⟩ := hs
    subst hX
    exact ⟨hInv, rfl, rfl, rfl, rfl, le_refl _, Or.inl rfl⟩
  · simp only [SharedState.getFrame, beq_iff_eq, hDq, if_false, Option.some.injEq,
      Prod.mk.injEq] at hs
    obtain ⟨hX, _⟩ := hs
    subst hX
    refine ⟨⟨?_, ?_⟩, rfl, rfl, rfl, rfl, ?_, ?_⟩
    · exact ⟨hr, hn, hsz, hst, hd, hsk, hfi, hi0, hi1, hi2, hi3⟩
    · norm_num [Inv]
      norm_num [InvEven, slotRendered, slotShown, slotIdx, slotNonNull,
        SharedState.getFrame]
      refine ⟨hDq, o4, o1, ?_, ?_, ?_, ?_⟩
      · intro h3
        exact (o7 h3).1
      · intro h2
        exact o6 h2
      · intro h3
        exact ⟨(o7 h3).2.1, (o7 h3).2.2⟩
      · exact o8
    · norm_num [Nval, slotIdx, SharedState.getFrame, hc]
    · right
      norm_num [hc]

theorem inv_shown_c3 (s s' : SharedState) (b : Bool)
    (h : Inv s) (hc : s.counter = 3)
    (hs : s.markFrameShown = some (s', b)) :
    Inv s' ∧ s'.started = s.started ∧ s'.delay = s.delay ∧
      s'.skippedFrames = s.skippedFrames ∧ s'.frameRate = s.frameRate ∧
      Nval s ≤ Nval s' ∧
      (s'.counter = s.counter ∨ s'.counter = Int.tmod (s.counter + 1) (2 * kFramesCount)) := by
  have hInv : Inv s := h
  obtain ⟨hb, hcase⟩ := h
  obtain ⟨hr, hn, hsz, hst, hd, hsk, hfi, hi0, hi1, hi2, hi3⟩ := hb
  rw [hc] at hcase
  norm_num at hcase
  norm_num [InvOdd, slotRendered, slotShown, slotIdx, slotNonNull,
    SharedState.getFrame, SharedState.countFrameDisplayTime] at hcase
  obtain ⟨o1, o2, o3, o4, o5, o6, o7, o8⟩ := hcase
  rw [SharedState.markFrameShown] at hs
  norm_num [hc, kFramesCount] at hs
  by_cases hDq : s.f2.displayed = kTimeUnknown
  · simp only [SharedState.getFrame, hDq, if_true, Option.some.injEq, Prod.mk.injEq,
      beq_self_eq_true] at hs
    obtain ⟨hX, _⟩ := hs
    subst hX
    exact ⟨hInv, rfl, rfl, rfl, rfl, le_refl _, Or.inl rfl⟩
  · simp only [SharedState.getFrame, beq_iff_eq, hDq, if_false, Option.some.injEq,
      Prod.mk.injEq] at hs
    obtain ⟨hX, _⟩ := hs
    subst hX
    refine ⟨⟨?_, ?_⟩, rfl, rfl, rfl, rfl, ?_, ?_⟩
    · exact ⟨hr, hn, hsz, hst, hd, hsk, hfi, hi0, hi1, hi2, hi3⟩
    · norm_num [Inv]
      norm_num [InvEven, slotRendered, slotShown, slotIdx, slotNonNull,
        SharedState.getFrame]
      refine ⟨hDq, o4, o1, ?_, ?_, ?_, ?_⟩
      · intro h3
        exact (o7 h3).1
      · intro h2
        exact o6 h2
      · intro h3
        exact ⟨(o7 h3).2.1, (o7 h3).2.2⟩
      · exact o8
    · norm_num [Nval, slotIdx, SharedState.getFrame, hc]
    · right
      norm_num [hc]

theorem inv_shown_c5 (s s' : SharedState) (b : Bool)
    (h : Inv s) (hc : s.counter = 5)
    (hs : s.markFrameShown = some (s', b)) :
    Inv s' ∧ s'.started = s.started ∧ s'.delay = s.delay ∧
      s'.skippedFrames = s.skippedFrames ∧ s'.frameRate = s.frameRate ∧
      Nval s ≤ Nval s' ∧
      (s'.counter = s.counter ∨ s'.counter = Int.tmod (s.counter + 1) (2 * kFramesCount)) := by
  have hInv : Inv s := h
  obtain ⟨hb, hcase⟩ := h
  obtain ⟨hr, hn, hsz, hst, hd, hsk, hfi, hi0, hi1, hi2, hi3⟩ := hb
  rw [hc] at hcase
  norm_num at hcase
  norm_num [InvOdd, slotRendered, slotShown, slotIdx, slotNonNull,
    SharedState.getFrame, SharedState.countFrameDisplayTime] at hcase
  obtain ⟨o1, o2, o3, o4, o5, o6, o7, o8⟩ := hcase
  rw [SharedState.markFrameShown] at hs
  norm_num [hc, kFramesCount] at hs
  by_cases hDq : s.f3.displayed = kTimeUnknown
  · simp only [SharedState.getFrame, hDq, if_true, Option.some.injEq, Prod.mk.injEq,
      beq_self_eq_true] at hs
    obtain ⟨hX, _⟩ := hs
    subst hX
    exact ⟨hInv, rfl, rfl, rfl, rfl, le_refl _, Or.inl rfl⟩
  · simp only [SharedState.getFrame, beq_iff_eq, hDq, if_false, Option.some.injEq,
      Prod.mk.injEq] at hs
    obtain ⟨hX, _⟩ := hs
    subst hX
    refine ⟨⟨?_, ?_⟩, rfl, rfl, rfl, rfl, ?_, ?_⟩
    · exact ⟨hr, hn, hsz, hst, hd, hsk, hfi, hi0, hi1, hi2, hi3⟩
    · norm_num [Inv]
      norm_num [InvEven, slotRendered, slotShown, slotIdx, slotNonNull,
        SharedState.getFrame]
      refine ⟨hDq, o4, o1, ?_, ?_, ?_, ?_⟩
      · intro h3
        exact (o7 h3).1
      · intro h2
        exact o6 h2
      · intro h3
        exact ⟨(o7 h3).2.1, (o7 h3).2.2⟩
      · exact o8
    · norm_num [Nval, slotIdx, SharedState.getFrame, hc]
    · right
      norm_num [hc]

theorem inv_shown_c7 (s s' : SharedState) (b : Bool)
    (h : Inv s) (hc : s.counter = 7)
    (hs : s.markFrameShown = some (s', b)) :
    Inv s' ∧ s'.started = s.started ∧ s'.delay = s.delay ∧
      s'.skippedFrames = s.skippedFrames ∧ s'.frameRate = s.frameRate ∧
      Nval s ≤ Nval s' ∧
      (s'.counter = s.counter ∨ s'.counter = Int.tmod (s.counter + 1) (2 * kFramesCount)) := by
  have hInv : Inv s := h
  obtain ⟨hb, hcase⟩ := h
  obtain ⟨hr, hn, hsz, hst, hd, hsk, hfi, hi0, hi1, hi2, hi3⟩ := hb
  rw [hc] at hcase
  norm_num at hcase
  norm_num [InvOdd, slotRendered, slotShown, slotIdx, slotNonNull,
    SharedState.getFrame, SharedState.countFrameDisplayTime] at hcase
  obtain ⟨o1, o2, o3, o4, o5, o6, o7, o8⟩ := hcase
  rw [SharedState.markFrameShown] at hs
  norm_num [hc, kFramesCount] at hs
  by_cases hDq : s.f0.displayed = kTimeUnknown
  · simp only [SharedState.getFrame, hDq, if_true, Option.some.injEq, Prod.mk.injEq,
      beq_self_eq_true] at hs
    obtain ⟨hX, _⟩ := hs
    subst hX
    exact ⟨hInv, rfl, rfl, rfl, rfl, le_refl _, Or.inl rfl⟩
  · simp only [SharedState.getFrame, beq_iff_eq, hDq, if_false, Option.some.injEq,
      Prod.mk.injEq] at hs
    obtain ⟨hX, _⟩ := hs
    subst hX
    refine ⟨⟨?_, ?_⟩, rfl, rfl, rfl, rfl, ?_, ?_⟩
    · exact ⟨hr, hn, hsz, hst, hd, hsk, hfi, hi0, hi1, hi2, hi3⟩
    · norm_num [Inv]
      norm_num [InvEven, slotRendered, slotShown, slotIdx, slotNonNull,
        SharedState.getFrame]
      refine ⟨hDq, o4, o1, ?_, ?_, ?_, ?_⟩
      · intro h3
        exact (o7 h3).1
      · intro h2
        exact o6 h2
      · intro h3
        exact ⟨(o7 h3).2.1, (o7 h3).2.2⟩
      · exact o8
    · norm_num [Nval, slotIdx, SharedState.getFrame, hc]
    · right
      norm_num [hc]

theorem inv_displayed_c1 (s s' : SharedState) (now : Int)
    (h : Inv s) (hc : s.counter = 1)
    (hs : s.markFrameDisplayed now = some s') :
    Inv s' ∧ s'.started = s.started ∧ s'.delay = s.delay ∧
      s'.skippedFrames = s.skippedFrames ∧ s'.frameRate = s.frameRate ∧
      Nval s ≤ Nval s' ∧
      (s'.counter = s.counter ∨ s'.counter = Int.tmod (s.counter + 1) (2 * kFramesCount)) := by
  have hInv : Inv s := h
  obtain ⟨hb, hcase⟩ := h
  obtain ⟨hr, hn, hsz, hst, hd, hsk, hfi, hi0, hi1, hi2, hi3⟩ := hb
  rw [hc] at hcase
  norm_num at hcase
  norm_num [InvOdd, slotRendered, slotShown, slotIdx, slotNonNull,
    SharedState.getFrame, SharedState.countFrameDisplayTime] at hcase
  obtain ⟨o1, o2, o3, o4, o5, o6, o7, o8⟩ := hcase
  rw [SharedState.markFrameDisplayed] at hs
  norm_num [hc, kFramesCount] at hs
  by_cases hDq : s.f1.displayed = kTimeUnknown
  · simp only [SharedState.getFrame, hDq, if_true, beq_self_eq_true,
      Option.some.injEq] at hs
    subst hs
    refine ⟨⟨?_, ?_⟩, rfl, rfl, rfl, rfl, ?_, Or.inl rfl⟩
    · norm_num [InvBase, SharedState.setFrame]
      repeat' apply And.intro
      all_goals first
        | exact hsz
        | assumption
        | omega
    · norm_num [Inv, SharedState.setFrame, hc]
      norm_num [InvOdd, slotRendered, slotShown, slotIdx, slotNonNull,
        SharedState.getFrame, SharedState.setFrame, SharedState.countFrameDisplayTime]
      refine ⟨o1, o2, o3, o4, ?_, o6, o7, o8⟩
      intro _
      exact o5 hDq
    · norm_num [Nval, slotIdx, SharedState.getFrame, SharedState.setFrame, hc]
  · simp only [SharedState.getFrame, beq_iff_eq, hDq, if_false,
      Option.some.injEq] at hs
    subst hs
    exact ⟨hInv, rfl, rfl, rfl, rfl, le_refl _, Or.inl rfl⟩

theorem inv_displayed_c3 (s s' : SharedState) (now : Int)
    (h : Inv s) (hc : s.counter = 3)
    (hs : s.markFrameDisplayed now = some s') :
    Inv s' ∧ s'.started = s.started ∧ s'.delay = s.delay ∧
      s'.skippedFrames = s.skippedFrames ∧ s'.frameRate = s.frameRate ∧
      Nval s ≤ Nval s' ∧
      (s'.counter = s.counter ∨ s'.counter = Int.tmod (s.counter + 1) (2 * kFramesCount)) := by
  have hInv : Inv s := h
  obtain ⟨hb, hcase⟩ := h
  obtain ⟨hr, hn, hsz, hst, hd, hsk, hfi, hi0, hi1, hi2, hi3⟩ := hb
  rw [hc] at hcase
  norm_num at hcase
  norm_num [InvOdd, slotRendered, slotShown, slotIdx, slotNonNull,
    SharedState.getFrame, SharedState.countFrameDisplayTime] at hcase
  obtain ⟨o1, o2, o3, o4, o5, o6, o7, o8⟩ := hcase
  rw [SharedState.markFrameDisplayed] at hs
  norm_num [hc, kFramesCount] at hs
  by_cases hDq : s.f2.displayed = kTimeUnknown
  · simp only [SharedState.getFrame, hDq, if_true, beq_self_eq_true,
      Option.some.injEq] at hs
    subst hs
    refine ⟨⟨?_, ?_⟩, rfl, rfl, rfl, rfl, ?_, Or.inl rfl⟩
    · norm_num [InvBase, SharedState.setFrame]
      repeat' apply And.intro
      all_goals first
        | exact hsz
        | assumption
        | omega
    · norm_num [Inv, SharedState.setFrame, hc]
      norm_num [InvOdd, slotRendered, slotShown, slotIdx, slotNonNull,
        SharedState.getFrame, SharedState.setFrame, SharedState.countFrameDisplayTime]
      refine ⟨o1, o2, o3, o4, ?_, o6, o7, o8⟩
      intro _
      exact o5 hDq
    · norm_num [Nval, slotIdx, SharedState.getFrame, SharedState.setFrame, hc]
  · simp only [SharedState.getFrame, beq_iff_eq, hDq, if_false,
      Option.some.injEq] at hs
    subst hs
    exact ⟨hInv, rfl, rfl, rfl, rfl, le_refl _, Or.inl rfl⟩

theorem inv_displayed_c5 (s s' : SharedState) (now : Int)
    (h : Inv s) (hc : s.counter = 5)
    (hs : s.markFrameDisplayed now = some s') :
    Inv s' ∧ s'.started = s.started ∧ s'.delay = s.delay ∧
      s'.skippedFrames = s.skippedFrames ∧ s'.frameRate = s.frameRate ∧
      Nval s ≤ Nval s' ∧
      (s'.counter = s.counter ∨ s'.counter = Int.tmod (s.counter + 1) (2 * kFramesCount)) := by
  have hInv : Inv s := h
  obtain ⟨hb, hcase⟩ := h
  obtain ⟨hr, hn, hsz, hst, hd, hsk, hfi, hi0, hi1, hi2, hi3⟩ := hb
  rw [hc] at hcase
  norm_num at hcase
  norm_num [InvOdd, slotRendered, slotShown, slotIdx, slotNonNull,
    SharedState.getFrame, SharedState.countFrameDisplayTime] at hcase
  obtain ⟨o1, o2, o3, o4, o5, o6, o7, o8⟩ := hcase
  rw [SharedState.markFrameDisplayed] at hs
  norm_num [hc, kFramesCount] at hs
  by_cases hDq : s.f3.displayed = kTimeUnknown
  · simp only [SharedState.getFrame, hDq, if_true, beq_self_eq_true,
      Option.some.injEq] at hs
    subst hs
    refine ⟨⟨?_, ?_⟩, rfl, rfl, rfl, rfl, ?_, Or.inl rfl⟩
    · norm_num [InvBase, SharedState.setFrame]
      repeat' apply And.intro
      all_goals first
        | exact hsz
        | assumption
        | omega
    · norm_num [Inv, SharedState.setFrame, hc]
      norm_num [InvOdd, slotRendered, slotShown, slotIdx, slotNonNull,
        SharedState.getFrame, SharedState.setFrame, SharedState.countFrameDisplayTime]
      refine ⟨o1, o2, o3, o4, ?_, o6, o7, o8⟩
      intro _
      exact o5 hDq
    · norm_num [Nval, slotIdx, SharedState.getFrame, SharedState.setFrame, hc]
  · simp only [SharedState.getFrame, beq_iff_eq, hDq, if_false,
      Option.some.injEq] at hs
    subst hs
    exact ⟨hInv, rfl, rfl, rfl, rfl, le_refl _, Or.inl rfl⟩

theorem inv_displayed_c7 (s s' : SharedState) (now : Int)
    (h : Inv s) (hc : s.counter = 7)
    (hs : s.markFrameDisplayed now = some s') :
    Inv s' ∧ s'.started = s.started ∧ s'.delay = s.delay ∧
      s'.skippedFrames = s.skippedFrames ∧ s'.frameRate = s.frameRate ∧
      Nval s ≤ Nval s' ∧
      (s'.counter = s.counter ∨ s'.counter = Int.tmod (s.counter + 1) (2 * kFramesCount)) := by
  have hInv : Inv s := h
  obtain ⟨hb, hcase⟩ := h
  obtain ⟨hr, hn, hsz, hst, hd, hsk, hfi, hi0, hi1, hi2, hi3⟩ := hb
  rw [hc] at hcase
  norm_num at hcase
  norm_num [InvOdd, slotRendered, slotShown, slotIdx, slotNonNull,
    SharedState.getFrame, SharedState.countFrameDisplayTime] at hcase
  obtain ⟨o1, o2, o3, o4, o5, o6, o7, o8⟩ := hcase
  rw [SharedState.markFrameDisplayed] at hs
  norm_num [hc, kFramesCount] at hs
  by_cases hDq : s.f0.displayed = kTimeUnknown
  · simp only [SharedState.getFrame, hDq, if_true, beq_self_eq_true,
      Option.some.injEq] at hs
    subst hs
    refine ⟨⟨?_, ?_⟩, rfl, rfl, rfl, rfl, ?_, Or.inl rfl⟩
    · norm_num [InvBase, SharedState.setFrame]
      repeat' apply And.intro
      all_goals first
        | exact hsz
        | assumption
        | omega
    · norm_num [Inv, SharedState.setFrame, hc]
      norm_num [InvOdd, slotRendered, slotShown, slotIdx, slotNonNull,
        SharedState.getFrame, SharedState.setFrame, SharedState.countFrameDisplayTime]
      refine ⟨o1, o2, o3, o4, ?_, o6, o7, o8⟩
      intro _
      exact o5 hDq
    · norm_num [Nval, slotIdx, SharedState.getFrame, SharedState.setFrame, hc]
  · simp only [SharedState.getFrame, beq_iff_eq, hDq, if_false,
      Option.some.injEq] at hs
    subst hs
    exact ⟨hInv, rfl, rfl, rfl, rfl, le_refl _, Or.inl rfl⟩

theorem inv_delay_c1 (s s' : SharedState) (d k : Int)
    (h : Inv s) (hc : s.counter = 1) (hdk : 0 ≤ d ∧ 0 ≤ k)
    (hs : s.addTimelineDelay d k = some s') :
    Inv s' ∧ s'.counter = s.counter := by
  have hInv : Inv s := h
  obtain ⟨hb, hcase⟩ := h
  obtain ⟨hr, hn, hsz, hst, hd0, hsk, hfi, hi0, hi1, hi2, hi3⟩ := hb
  rw [hc] at hcase
  norm_num at hcase
  norm_num [InvOdd, slotRendered, slotShown, slotIdx, slotNonNull,
    SharedState.getFrame, SharedState.countFrameDisplayTime] at hcase
  obtain ⟨o1, o2, o3, o4, o5, o6, o7, o8⟩ := hcase
  rw [SharedState.addTimelineDelay] at hs
  by_cases hz : d = 0 ∧ k = 0
  · simp only [hz, and_self, if_true] at hs
    obtain ⟨rfl⟩ := hs
    exact ⟨hInv, rfl⟩
  · rw [if_neg hz] at hs
    norm_num [hc, kFramesCount] at hs
    by_cases hDq : s.f1.displayed = kTimeUnknown
    · simp [SharedState.getFrame, IsRendered, hDq] at hs
      by_cases hDisp : s.f1.display = kTimeUnknown
      · simp [hDisp] at hs
      · simp only [hDisp, if_false, Option.some.injEq] at hs
        first
        | subst hs
        | (obtain ⟨-, hs⟩ := hs; subst hs)
        refine ⟨⟨?_, ?_⟩, ?_⟩
        · norm_num [InvBase, SharedState.setFrame]
          repeat' apply And.intro
          all_goals first
            | exact hsz
            | assumption
            | omega
        · norm_num [Inv, SharedState.setFrame, hc]
          norm_num [InvOdd, slotRendered, slotShown, slotIdx, slotNonNull,
            SharedState.getFrame, SharedState.setFrame,
            SharedState.countFrameDisplayTime]
          exact ⟨o1, o2, o3, o4, o6, o7, o8⟩
        · norm_num [SharedState.setFrame, hc]
    · simp only [SharedState.getFrame, beq_iff_eq, hDq, if_false] at hs
      simp only [hDq, if_false, Option.some.injEq] at hs
      first
      | subst hs
      | (obtain ⟨-, hs⟩ := hs; subst hs)
      refine ⟨⟨?_, ?_⟩, by norm_num [hc]⟩
      · norm_num [InvBase]
        repeat' apply And.intro
        all_goals first
          | exact hsz
          | assumption
          | omega
      · norm_num [Inv, hc]
        norm_num [InvOdd, slotRendered, slotShown, slotIdx, slotNonNull,
          SharedState.getFrame, SharedState.countFrameDisplayTime]
        exact ⟨o1, o2, o3, o4, fun hq => absurd hq hDq, o6, o7, o8⟩

theorem inv_delay_c3 (s s' : SharedState) (d k : Int)
    (h : Inv s) (hc : s.counter = 3) (hdk : 0 ≤ d ∧ 0 ≤ k)
    (hs : s.addTimelineDelay d k = some s') :
    Inv s' ∧ s'.counter = s.counter := by
  have hInv : Inv s := h
  obtain ⟨hb, hcase⟩ := h
  obtain ⟨hr, hn, hsz, hst, hd0, hsk, hfi, hi0, hi1, hi2, hi3⟩ := hb
  rw [hc] at hcase
  norm_num at hcase
  norm_num [InvOdd, slotRendered, slotShown, slotIdx, slotNonNull,
    SharedState.getFrame, SharedState.countFrameDisplayTime] at hcase
  obtain ⟨o1, o2, o3, o4, o5, o6, o7, o8⟩ := hcase
  rw [SharedState.addTimelineDelay] at hs
  by_cases hz : d = 0 ∧ k = 0
  · simp only [hz, and_self, if_true] at hs
    obtain ⟨rfl⟩ := hs
    exact ⟨hInv, rfl⟩
  · rw [if_neg hz] at hs
    norm_num [hc, kFramesCount] at hs
    by_cases hDq : s.f2.displayed = kTimeUnknown
    · simp [SharedState.getFrame, IsRendered, hDq] at hs
      by_cases hDisp : s.f2.display = kTimeUnknown
      · simp [hDisp] at hs
      · simp only [hDisp, if_false, Option.some.injEq] at hs
        first
        | subst hs
        | (obtain ⟨-, hs⟩ := hs; subst hs)
        refine ⟨⟨?_, ?_⟩, ?_⟩
        · norm_num [InvBase, SharedState.setFrame]
          repeat' apply And.intro
          all_goals first
            | exact hsz
            | assumption
            | omega
        · norm_num [Inv, SharedState.setFrame, hc]
          norm_num [InvOdd, slotRendered, slotShown, slotIdx, slotNonNull,
            SharedState.getFrame, SharedState.setFrame,
            SharedState.countFrameDisplayTime]
          exact ⟨o1, o2, o3, o4, o6, o7, o8⟩
        · norm_num [SharedState.setFrame, hc]
    · simp only [SharedState.getFrame, beq_iff_eq, hDq, if_false] at hs
      simp only [hDq, if_false, Option.some.injEq] at hs
      first
      | subst hs
      | (obtain ⟨-, hs⟩ := hs; subst hs)
      refine ⟨⟨?_, ?_⟩, by norm_num [hc]⟩
      · norm_num [InvBase]
        repeat' apply And.intro
        all_goals first
          | exact hsz
          | assumption
          | omega
      · norm_num [Inv, hc]
        norm_num [InvOdd, slotRendered, slotShown, slotIdx, slotNonNull,
          SharedState.getFrame, SharedState.countFrameDisplayTime]
        exact ⟨o1, o2, o3, o4, fun hq => absurd hq hDq, o6, o7, o8⟩

theorem inv_delay_c5 (s s' : SharedState) (d k : Int)
    (h : Inv s) (hc : s.counter = 5) (hdk : 0 ≤ d ∧ 0 ≤ k)
    (hs : s.addTimelineDelay d k = some s') :
    Inv s' ∧ s'.counter = s.counter := by
  have hInv : Inv s := h
  obtain ⟨hb, hcase⟩ := h
  obtain ⟨hr, hn, hsz, hst, hd0, hsk, hfi, hi0, hi1, hi2, hi3⟩ := hb
  rw [hc] at hcase
  norm_num at hcase
  norm_num [InvOdd, slotRendered, slotShown, slotIdx, slotNonNull,
    SharedState.getFrame, SharedState.countFrameDisplayTime] at hcase
  obtain ⟨o1, o2, o3, o4, o5, o6, o7, o8⟩ := hcase
  rw [SharedState.addTimelineDelay] at hs
  by_cases hz : d = 0 ∧ k = 0
  · simp only [hz, and_self, if_true] at hs
    obtain ⟨rfl⟩ := hs
    exact ⟨hInv, rfl⟩
  · rw [if_neg hz] at hs
    norm_num [hc, kFramesCount] at hs
    by_cases hDq : s.f3.displayed = kTimeUnknown
    · simp [SharedState.getFrame, IsRendered, hDq] at hs
      by_cases hDisp : s.f3.display = kTimeUnknown
      · simp [hDisp] at hs
      · simp only [hDisp, if_false, Option.some.injEq] at hs
        first
        | subst hs
        | (obtain ⟨-, hs⟩ := hs; subst hs)
        refine ⟨⟨?_, ?_⟩, ?_⟩
        · norm_num [InvBase, SharedState.setFrame]
          repeat' apply And.intro
          all_goals first
            | exact hsz
            | assumption
            | omega
        · norm_num [Inv, SharedState.setFrame, hc]
          norm_num [InvOdd, slotRendered, slotShown, slotIdx, slotNonNull,
            SharedState.getFrame, SharedState.setFrame,
            SharedState.countFrameDisplayTime]
          exact ⟨o1, o2, o3, o4, o6, o7, o8⟩
        · norm_num [SharedState.setFrame, hc]
    · simp only [SharedState.getFrame, beq_iff_eq, hDq, if_false] at hs
      simp only [hDq, if_false, Option.some.injEq] at hs
      first
      | subst hs
      | (obtain ⟨-, hs⟩ := hs; subst hs)
      refine ⟨⟨?_, ?_⟩, by norm_num [hc]⟩
      · norm_num [InvBase]
        repeat' apply And.intro
        all_goals first
          | exact hsz
          | assumption
          | omega
      · norm_num [Inv, hc]
        norm_num [InvOdd, slotRendered, slotShown, slotIdx, slotNonNull,
          SharedState.getFrame, SharedState.countFrameDisplayTime]
        exact ⟨o1, o2, o3, o4, fun hq => absurd hq hDq, o6, o7, o8⟩

theorem inv_delay_c7 (s s' : SharedState) (d k : Int)
    (h : Inv s) (hc : s.counter = 7) (hdk : 0 ≤ d ∧ 0 ≤ k)
    (hs : s.addTimelineDelay d k = some s') :
    Inv s' ∧ s'.counter = s.counter := by
  have hInv : Inv s := h
  obtain ⟨hb, hcase⟩ := h
  obtain ⟨hr, hn, hsz, hst, hd0, hsk, hfi, hi0, hi1, hi2, hi3⟩ := hb
  rw [hc] at hcase
  norm_num at hcase
  norm_num [InvOdd, slotRendered, slotShown, slotIdx, slotNonNull,
    SharedState.getFrame, SharedState.countFrameDisplayTime] at hcase
  obtain ⟨o1, o2, o3, o4, o5, o6, o7, o8⟩ := hcase
  rw [SharedState.addTimelineDelay] at hs
  by_cases hz : d = 0 ∧ k = 0
  · simp only [hz, and_self, if_true] at hs
    obtain ⟨rfl⟩ := hs
    exact ⟨hInv, rfl⟩
  · rw [if_neg hz] at hs
    norm_num [hc, kFramesCount] at hs
    by_cases hDq : s.f0.displayed = kTimeUnknown
    · simp [SharedState.getFrame, IsRendered, hDq] at hs
      by_cases hDisp : s.f0.display = kTimeUnknown
      · simp [hDisp] at hs
      · simp only [hDisp, if_false, Option.some.injEq] at hs
        first
        | subst hs
        | (obtain ⟨-, hs⟩ := hs; subst hs)
        refine ⟨⟨?_, ?_⟩, ?_⟩
        · norm_num [InvBase, SharedState.setFrame]
          repeat' apply And.intro
          all_goals first
            | exact hsz
            | assumption
            | omega
        · norm_num [Inv, SharedState.setFrame, hc]
          norm_num [InvOdd, slotRendered, slotShown, slotIdx, slotNonNull,
            SharedState.getFrame, SharedState.setFrame,
            SharedState.countFrameDisplayTime]
          exact ⟨o1, o2, o3, o4, o6, o7, o8⟩
        · norm_num [SharedState.setFrame, hc]
    · simp only [SharedState.getFrame, beq_iff_eq, hDq, if_false] at hs
      simp only [hDq, if_false, Option.some.injEq] at hs
      first
      | subst hs
      | (obtain ⟨-, hs⟩ := hs; subst hs)
      refine ⟨⟨?_, ?_⟩, by norm_num [hc]⟩
      · norm_num [InvBase]
        repeat' apply And.intro
        all_goals first
          | exact hsz
          | assumption
          | omega
      · norm_num [Inv, hc]
        norm_num [InvOdd, slotRendered, slotShown, slotIdx, slotNonNull,
          SharedState.getFrame, SharedState.countFrameDisplayTime]
        exact ⟨o1, o2, o3, o4, fun hq => absurd hq hDq, o6, o7, o8⟩

theorem inv_counter_cases (s : SharedState) (h : Inv s) :
    s.counter = -1 ∨ s.counter = 0 ∨ s.counter = 1 ∨ s.counter = 2 ∨ s.counter = 3 ∨
      s.counter = 4 ∨ s.counter = 5 ∨ s.counter = 6 ∨ s.counter = 7 := by
  obtain ⟨-, hcase⟩ := h
  simp only [kCounterUninitialized_eq] at hcase
  split_ifs at hcase with h0 h1 h2 h3 h4 h5 h6 h7 h8
  all_goals first
    | omega
    | exact hcase.elim

theorem inv_start (s : SharedState) (t d k : Int) (h : Inv s)
    (hc : s.counter = kCounterUninitialized) (ht : 0 ≤ t) (hd1 : 0 ≤ d) (hk : 0 ≤ k) :
    Inv (s.start t d k) := by
  obtain ⟨hb, hcase⟩ := h
  obtain ⟨hr, hn, hsz, hst, hd0, hsk, hfi, hi0, hi1, hi2, hi3⟩ := hb
  rw [hc] at hcase
  norm_num at hcase
  norm_num [InvPre, slotRendered, slotShown, slotIdx, slotNonNull,
    SharedState.getFrame] at hcase
  obtain ⟨p1, p2, p3, p4, p5, p6⟩ := hcase
  refine ⟨?_, ?_⟩
  · norm_num [InvBase, SharedState.start]
    exact ⟨hr, hn, hsz, ht, hd1, hk, hfi, hi0, hi1, hi2, hi3⟩
  · norm_num [Inv, SharedState.start]
    norm_num [InvEven, slotRendered, slotShown, slotIdx, slotNonNull,
      SharedState.getFrame]
    refine ⟨p1, p5, p4, ?_, ?_, ?_, ?_⟩
    · intro h2
      exact absurd h2 p3
    · intro h1
      exact absurd h1 p2
    · intro h2
      exact absurd h2 p3
    · simp [p2, p3, p6]

theorem construct_inv (rep : ReportedProperties) (request : FrameRequest)
    (hv : (constructState rep request).isValid = true) :
    Inv (constructState rep request) := by
  rw [constructState] at hv ⊢
  split_ifs at hv ⊢ with hcond
  · rw [Bool.not_eq_true'] at hcond
    rw [hcond] at hv
    exact absurd hv (by decide)
  · have h : (calculateProperties rep {}).isValid = true := by
      simpa using hcond
    have hv2 := (isValid_iff _).mp h
    refine ⟨?_, ?_⟩
    · norm_num [InvBase, calculateProperties]
      norm_num [calculateProperties] at hv2
      refine ⟨by omega, by omega, ?_⟩
      exact hv2.2.2
    · norm_num [Inv, calculateProperties]
      norm_num [InvPre, slotRendered, slotShown, slotIdx, slotNonNull,
        SharedState.getFrame, calculateProperties]
      constructor
      · intro hfalse
        exact absurd hfalse (by decide)
      · have := renderFrame_not_null (calculateProperties rep {}) QImage.nullImage
          request 0 h
        simpa [calculateProperties] using this

theorem inv_stepOp {s s' : SharedState} {op : Op} (h : Inv s)
    (hs : stepOp s op = some s') : Inv s' := by
  cases op with
  | startOp t d k =>
    simp only [stepOp] at hs
    by_cases hg : s.counter = kCounterUninitialized ∧ 0 ≤ t ∧ 0 ≤ d ∧ 0 ≤ k
    · rw [if_pos hg, Option.some.injEq] at hs
      subst hs
      exact inv_start s t d k h hg.1 hg.2.1 hg.2.2.1 hg.2.2.2
    · rw [if_neg hg] at hs
      exact Option.noConfusion hs
  | renderOp req =>
    simp only [stepOp] at hs
    rw [Option.map_eq_some'] at hs
    obtain ⟨⟨s2, r⟩, hpair, hfst⟩ := hs
    cases hfst
    rcases inv_counter_cases s h with hc | hc | hc | hc | hc | hc | hc | hc | hc
    · rw [SharedState.renderNextFrame] at hpair
      norm_num [hc] at hpair
      exact Option.noConfusion hpair
    · exact (inv_render_c0 s s2 req r h hc hpair).1
    · exact (inv_render_c1 s s2 req r h hc hpair).1
    · exact (inv_render_c2 s s2 req r h hc hpair).1
    · exact (inv_render_c3 s s2 req r h hc hpair).1
    · exact (inv_render_c4 s s2 req r h hc hpair).1
    · exact (inv_render_c5 s s2 req r h hc hpair).1
    · exact (inv_render_c6 s s2 req r h hc hpair).1
    · exact (inv_render_c7 s s2 req r h hc hpair).1
  | shownOp =>
    simp only [stepOp] at hs
    rw [Option.map_eq_some'] at hs
    obtain ⟨⟨s2, b⟩, hpair, hfst⟩ := hs
    cases hfst
    rcases inv_counter_cases s h with hc | hc | hc | hc | hc | hc | hc | hc | hc
    · rw [SharedState.markFrameShown] at hpair
      norm_num [hc] at hpair
      exact Option.noConfusion hpair
    · rw [SharedState.markFrameShown] at hpair
      norm_num [hc] at hpair
      obtain ⟨hX, -⟩ := hpair
      subst hX
      exact h
    · exact (inv_shown_c1 s s2 b h hc hpair).1
    · rw [SharedState.markFrameShown] at hpair
      norm_num [hc] at hpair
      obtain ⟨hX, -⟩ := hpair
      subst hX
      exact h
    · exact (inv_shown_c3 s s2 b h hc hpair).1
    · rw [SharedState.markFrameShown] at hpair
      norm_num [hc] at hpair
      obtain ⟨hX, -⟩ := hpair
      subst hX
      exact h
    · exact (inv_shown_c5 s s2 b h hc hpair).1
    · rw [SharedState.markFrameShown] at hpair
      norm_num [hc] at hpair
      obtain ⟨hX, -⟩ := hpair
      subst hX
      exact h
    · exact (inv_shown_c7 s s2 b h hc hpair).1
  | displayedOp now =>
    simp only [stepOp] at hs
    rcases inv_counter_cases s h with hc | hc | hc | hc | hc | hc | hc | hc | hc
    · rw [SharedState.markFrameDisplayed] at hs
      norm_num [hc] at hs
      exact Option.noConfusion hs
    · rw [SharedState.markFrameDisplayed] at hs
      norm_num [hc] at hs
      exact Option.noConfusion hs
    · exact (inv_displayed_c1 s s' now h hc hs).1
    · rw [SharedState.markFrameDisplayed] at hs
      norm_num [hc] at hs
      exact Option.noConfusion hs
    · exact (inv_displayed_c3 s s' now h hc hs).1
    · rw [SharedState.markFrameDisplayed] at hs
      norm_num [hc] at hs
      exact Option.noConfusion hs
    · exact (inv_displayed_c5 s s' now h hc hs).1
    · rw [SharedState.markFrameDisplayed] at hs
      norm_num [hc] at hs
      exact Option.noConfusion hs
    · exact (inv_displayed_c7 s s' now h hc hs).1
  | delayOp d k =>
    simp only [stepOp] at hs
    by_cases hg : 0 ≤ d ∧ 0 ≤ k
    · rw [if_pos hg] at hs
      rcases inv_counter_cases s h with hc | hc | hc | hc | hc | hc | hc | hc | hc
      all_goals try
        first
        | exact (inv_delay_c1 s s' d k h hc hg hs).1
        | exact (inv_delay_c3 s s' d k h hc hg hs).1
        | exact (inv_delay_c5 s s' d k h hc hg hs).1
        | exact (inv_delay_c7 s s' d k h hc hg hs).1
      all_goals
        rw [SharedState.addTimelineDelay] at hs
        by_cases hz : d = 0 ∧ k = 0
        · simp only [hz, and_self, if_true, Option.some.injEq] at hs
          subst hs
          exact h
        · rw [if_neg hz] at hs
          norm_num [hc] at hs
          exact Option.noConfusion hs
    · rw [if_neg hg] at hs
      exact Option.noConfusion hs

theorem stepOp_nd {s s' : SharedState} {op : Op} (h : Inv s)
    (hs : stepOp s op = some s') (hc0 : s.counter ≠ kCounterUninitialized)
    (hnd : ∀ d k, op ≠ Op.delayOp d k) :
    s'.started = s.started ∧ s'.delay = s.delay ∧ s'.skippedFrames = s.skippedFrames ∧
      s'.frameRate = s.frameRate ∧ Nval s ≤ Nval s' := by
  cases op with
  | startOp t d k =>
    simp only [stepOp] at hs
    by_cases hg : s.counter = kCounterUninitialized ∧ 0 ≤ t ∧ 0 ≤ d ∧ 0 ≤ k
    · exact absurd hg.1 hc0
    · rw [if_neg hg] at hs
      exact Option.noConfusion hs
  | renderOp req =>
    simp only [stepOp] at hs
    rw [Option.map_eq_some'] at hs
    obtain ⟨⟨s2, r⟩, hpair, hfst⟩ := hs
    cases hfst
    rcases inv_counter_cases s h with hc | hc | hc | hc | hc | hc | hc | hc | hc
    · exact absurd (by simpa using hc) hc0
    · exact ⟨(inv_render_c0 s s2 req r h hc hpair).2.1,
        (inv_render_c0 s s2 req r h hc hpair).2.2.1,
        (inv_render_c0 s s2 req r h hc hpair).2.2.2.1,
        (inv_render_c0 s s2 req r h hc hpair).2.2.2.2.1,
        (inv_render_c0 s s2 req r h hc hpair).2.2.2.2.2.1⟩
    · exact ⟨(inv_render_c1 s s2 req r h hc hpair).2.1,
        (inv_render_c1 s s2 req r h hc hpair).2.2.1,
        (inv_render_c1 s s2 req r h hc hpair).2.2.2.1,
        (inv_render_c1 s s2 req r h hc hpair).2.2.2.2.1,
        (inv_render_c1 s s2 req r h hc hpair).2.2.2.2.2.1⟩
    · exact ⟨(inv_render_c2 s s2 req r h hc hpair).2.1,
        (inv_render_c2 s s2 req r h hc hpair).2.2.1,
        (inv_render_c2 s s2 req r h hc hpair).2.2.2.1,
        (inv_render_c2 s s2 req r h hc hpair).2.2.2.2.1,
        (inv_render_c2 s s2 req r h hc hpair).2.2.2.2.2.1⟩
    · exact ⟨(inv_render_c3 s s2 req r h hc hpair).2.1,
        (inv_render_c3 s s2 req r h hc hpair).2.2.1,
        (inv_render_c3 s s2 req r h hc hpair).2.2.2.1,
        (inv_render_c3 s s2 req r h hc hpair).2.2.2.2.1,
        (inv_render_c3 s s2 req r h hc hpair).2.2.2.2.2.1⟩
    · exact ⟨(inv_render_c4 s s2 req r h hc hpair).2.1,
        (inv_render_c4 s s2 req r h hc hpair).2.2.1,
        (inv_render_c4 s s2 req r h hc hpair).2.2.2.1,
        (inv_render_c4 s s2 req r h hc hpair).2.2.2.2.1,
        (inv_render_c4 s s2 req r h hc hpair).2.2.2.2.2.1⟩
    · exact ⟨(inv_render_c5 s s2 req r h hc hpair).2.1,
        (inv_render_c5 s s2 req r h hc hpair).2.2.1,
        (inv_render_c5 s s2 req r h hc hpair).2.2.2.1,
        (inv_render_c5 s s2 req r h hc hpair).2.2.2.2.1,
        (inv_render_c5 s s2 req r h hc hpair).2.2.2.2.2.1⟩
    · exact ⟨(inv_render_c6 s s2 req r h hc hpair).2.1,
        (inv_render_c6 s s2 req r h hc hpair).2.2.1,
        (inv_render_c6 s s2 req r h hc hpair).2.2.2.1,
        (inv_render_c6 s s2 req r h hc hpair).2.2.2.2.1,
        (inv_render_c6 s s2 req r h hc hpair).2.2.2.2.2.1⟩
    · exact ⟨(inv_render_c7 s s2 req r h hc hpair).2.1,
        (inv_render_c7 s s2 req r h hc hpair).2.2.1,
        (inv_render_c7 s s2 req r h hc hpair).2.2.2.1,
        (inv_render_c7 s s2 req r h hc hpair).2.2.2.2.1,
        (inv_render_c7 s s2 req r h hc hpair).2.2.2.2.2.1⟩
  | shownOp =>
    simp only [stepOp] at hs
    rw [Option.map_eq_some'] at hs
    obtain ⟨⟨s2, b⟩, hpair, hfst⟩ := hs
    cases hfst
    rcases inv_counter_cases s h with hc | hc | hc | hc | hc | hc | hc | hc | hc
    · exact absurd (by simpa using hc) hc0
    · rw [SharedState.markFrameShown] at hpair
      norm_num [hc] at hpair
      obtain ⟨hX, -⟩ := hpair
      subst hX
      exact ⟨rfl, rfl, rfl, rfl, le_refl _⟩
    · exact ⟨(inv_shown_c1 s s2 b h hc hpair).2.1,
        (inv_shown_c1 s s2 b h hc hpair).2.2.1,
        (inv_shown_c1 s s2 b h hc hpair).2.2.2.1,
        (inv_shown_c1 s s2 b h hc hpair).2.2.2.2.1,
        (inv_shown_c1 s s2 b h hc hpair).2.2.2.2.2.1⟩
    · rw [SharedState.markFrameShown] at hpair
      norm_num [hc] at hpair
      obtain ⟨hX, -⟩ := hpair
      subst hX
      exact ⟨rfl, rfl, rfl, rfl, le_refl _⟩
    · exact ⟨(inv_shown_c3 s s2 b h hc hpair).2.1,
        (inv_shown_c3 s s2 b h hc hpair).2.2.1,
        (inv_shown_c3 s s2 b h hc hpair).2.2.2.1,
        (inv_shown_c3 s s2 b h hc hpair).2.2.2.2.1,
        (inv_shown_c3 s s2 b h hc hpair).2.2.2.2.2.1⟩
    · rw [SharedState.markFrameShown] at hpair
      norm_num [hc] at hpair
      obtain ⟨hX, -⟩ := hpair
      subst hX
      exact ⟨rfl, rfl, rfl, rfl, le_refl _⟩
    · exact ⟨(inv_shown_c5 s s2 b h hc hpair).2.1,
        (inv_shown_c5 s s2 b h hc hpair).2.2.1,
        (inv_shown_c5 s s2 b h hc hpair).2.2.2.1,
        (inv_shown_c5 s s2 b h hc hpair).2.2.2.2.1,
        (inv_shown_c5 s s2 b h hc hpair).2.2.2.2.2.1⟩
    · rw [SharedState.markFrameShown] at hpair
      norm_num [hc] at hpair
      obtain ⟨hX, -⟩ := hpair
      subst hX
      exact ⟨rfl, rfl, rfl, rfl, le_refl _⟩
    · exact ⟨(inv_shown_c7 s s2 b h hc hpair).2.1,
        (inv_shown_c7 s s2 b h hc hpair).2.2.1,
        (inv_shown_c7 s s2 b h hc hpair).2.2.2.1,
        (inv_shown_c7 s s2 b h hc hpair).2.2.2.2.1,
        (inv_shown_c7 s s2 b h hc hpair).2.2.2.2.2.1⟩
  | displayedOp now =>
    simp only [stepOp] at hs
    rcases inv_counter_cases s h with hc | hc | hc | hc | hc | hc | hc | hc | hc
    · exact absurd (by simpa using hc) hc0
    · rw [SharedState.markFrameDisplayed] at hs
      norm_num [hc] at hs
      exact Option.noConfusion hs
    · exact ⟨(inv_displayed_c1 s s' now h hc hs).2.1,
        (inv_displayed_c1 s s' now h hc hs).2.2.1,
        (inv_displayed_c1 s s' now h hc hs).2.2.2.1,
        (inv_displayed_c1 s s' now h hc hs).2.2.2.2.1,
        (inv_displayed_c1 s s' now h hc hs).2.2.2.2.2.1⟩
    · rw [SharedState.markFrameDisplayed] at hs
      norm_num [hc] at hs
      exact Option.noConfusion hs
    · exact ⟨(inv_displayed_c3 s s' now h hc hs).2.1,
        (inv_displayed_c3 s s' now h hc hs).2.2.1,
        (inv_displayed_c3 s s' now h hc hs).2.2.2.1,
        (inv_displayed_c3 s s' now h hc hs).2.2.2.2.1,
        (inv_displayed_c3 s s' now h hc hs).2.2.2.2.2.1⟩
    · rw [SharedState.markFrameDisplayed] at hs
      norm_num [hc] at hs
      exact Option.noConfusion hs
    · exact ⟨(inv_displayed_c5 s s' now h hc hs).2.1,
        (inv_displayed_c5 s s' now h hc hs).2.2.1,
        (inv_displayed_c5 s s' now h hc hs).2.2.2.1,
        (inv_displayed_c5 s s' now h hc hs).2.2.2.2.1,
        (inv_displayed_c5 s s' now h hc hs).2.2.2.2.2.1⟩
    · rw [SharedState.markFrameDisplayed] at hs
      norm_num [hc] at hs
      exact Option.noConfusion hs
    · exact ⟨(inv_displayed_c7 s s' now h hc hs).2.1,
        (inv_displayed_c7 s s' now h hc hs).2.2.1,
        (inv_displayed_c7 s s' now h hc hs).2.2.2.1,
        (inv_displayed_c7 s s' now h hc hs).2.2.2.2.1,
        (inv_displayed_c7 s s' now h hc hs).2.2.2.2.2.1⟩
  | delayOp d k =>
    exact absurd rfl (hnd d k)

theorem reach_inv {rep : ReportedProperties} {request : FrameRequest} {s : SharedState}
    (hv : (constructState rep request).isValid = true)
    (h : Reach rep request s) : Inv s := by
  induction h with
  | base => exact construct_inv rep request hv
  | step hr hstep ih => exact inv_stepOp ih hstep

theorem stepOp_counter {s s' : SharedState} {op : Op} (h : Inv s)
    (hs : stepOp s op = some s') :
    s'.counter = s.counter ∨ s'.counter = Int.tmod (s.counter + 1) (2 * kFramesCount) := by
  cases op with
  | startOp t d k =>
    simp only [stepOp] at hs
    by_cases hg : s.counter = kCounterUninitialized ∧ 0 ≤ t ∧ 0 ≤ d ∧ 0 ≤ k
    · rw [if_pos hg, Option.some.injEq] at hs
      subst hs
      right
      rw [hg.1]
      norm_num [SharedState.start]
    · rw [if_neg hg] at hs
      exact Option.noConfusion hs
  | renderOp req =>
    simp only [stepOp] at hs
    rw [Option.map_eq_some'] at hs
    obtain ⟨⟨s2, r⟩, hpair, hfst⟩ := hs
    cases hfst
    rcases inv_counter_cases s h with hc | hc | hc | hc | hc | hc | hc | hc | hc
    · rw [SharedState.renderNextFrame] at hpair
      norm_num [hc] at hpair
      exact Option.noConfusion hpair
    · exact (inv_render_c0 s s2 req r h hc hpair).2.2.2.2.2.2
    · exact (inv_render_c1 s s2 req r h hc hpair).2.2.2.2.2.2
    · exact (inv_render_c2 s s2 req r h hc hpair).2.2.2.2.2.2
    · exact (inv_render_c3 s s2 req r h hc hpair).2.2.2.2.2.2
    · exact (inv_render_c4 s s2 req r h hc hpair).2.2.2.2.2.2
    · exact (inv_render_c5 s s2 req r h hc hpair).2.2.2.2.2.2
    · exact (inv_render_c6 s s2 req r h hc hpair).2.2.2.2.2.2
    · exact (inv_render_c7 s s2 req r h hc hpair).2.2.2.2.2.2
  | shownOp =>
    simp only [stepOp] at hs
    rw [Option.map_eq_some'] at hs
    obtain ⟨⟨s2, b⟩, hpair, hfst⟩ := hs
    cases hfst
    rcases inv_counter_cases s h with hc | hc | hc | hc | hc | hc | hc | hc | hc
    · rw [SharedState.markFrameShown] at hpair
      norm_num [hc] at hpair
      exact Option.noConfusion hpair
    · rw [SharedState.markFrameShown] at hpair
      norm_num [hc] at hpair
      obtain ⟨hX, -⟩ := hpair
      subst hX
      exact Or.inl rfl
    · exact (inv_shown_c1 s s2 b h hc hpair).2.2.2.2.2.2
    · rw [SharedState.markFrameShown] at hpair
      norm_num [hc] at hpair
      obtain ⟨hX, -⟩ := hpair
      subst hX
      exact Or.inl rfl
    · exact (inv_shown_c3 s s2 b h hc hpair).2.2.2.2.2.2
    · rw [SharedState.markFrameShown] at hpair
      norm_num [hc] at hpair
      obtain ⟨hX, -⟩ := hpair
      subst hX
      exact Or.inl rfl
    · exact (inv_shown_c5 s s2 b h hc hpair).2.2.2.2.2.2
    · rw [SharedState.markFrameShown] at hpair
      norm_num [hc] at hpair
      obtain ⟨hX, -⟩ := hpair
      subst hX
      exact Or.inl rfl
    · exact (inv_shown_c7 s s2 b h hc hpair).2.2.2.2.2.2
  | displayedOp now =>
    simp only [stepOp] at hs
    rcases inv_counter_cases s h with hc | hc | hc | hc | hc | hc | hc | hc | hc
    · rw [SharedState.markFrameDisplayed] at hs
      norm_num [hc] at hs
      exact Option.noConfusion hs
    · rw [SharedState.markFrameDisplayed] at hs
      norm_num [hc] at hs
      exact Option.noConfusion hs
    · exact (inv_displayed_c1 s s' now h hc hs).2.2.2.2.2.2
    · rw [SharedState.markFrameDisplayed] at hs
      norm_num [hc] at hs
      exact Option.noConfusion hs
    · exact (inv_displayed_c3 s s' now h hc hs).2.2.2.2.2.2
    · rw [SharedState.markFrameDisplayed] at hs
      norm_num [hc] at hs
      exact Option.noConfusion hs
    · exact (inv_displayed_c5 s s' now h hc hs).2.2.2.2.2.2
    · rw [SharedState.markFrameDisplayed] at hs
      norm_num [hc] at hs
      exact Option.noConfusion hs
    · exact (inv_displayed_c7 s s' now h hc hs).2.2.2.2.2.2
  | delayOp d k =>
    simp only [stepOp] at hs
    by_cases hg : 0 ≤ d ∧ 0 ≤ k
    · rw [if_pos hg] at hs
      rcases inv_counter_cases s h with hc | hc | hc | hc | hc | hc | hc | hc | hc
      all_goals try
        first
        | exact Or.inl (inv_delay_c1 s s' d k h hc hg hs).2
        | exact Or.inl (inv_delay_c3 s s' d k h hc hg hs).2
        | exact Or.inl (inv_delay_c5 s s' d k h hc hg hs).2
        | exact Or.inl (inv_delay_c7 s s' d k h hc hg hs).2
      all_goals
        rw [SharedState.addTimelineDelay] at hs
        by_cases hz : d = 0 ∧ k = 0
        · simp only [hz, and_self, if_true, Option.some.injEq] at hs
          subst hs
          exact Or.inl rfl
        · rw [if_neg hz] at hs
          norm_num [hc] at hs
          exact Option.noConfusion hs
    · rw [if_neg hg] at hs
      exact Option.noConfusion hs

theorem Nval_def (s : SharedState) : Nval s = (s.getFrame (pendSlot s)).index := rfl

theorem cfdt_nonneg (s : SharedState) (i : Int) (h1 : 1 ≤ s.frameRate)
    (h2 : 0 ≤ s.started) (h3 : 0 ≤ s.delay) (h4 : 0 ≤ s.skippedFrames) (hi : 0 ≤ i) :
    0 ≤ s.countFrameDisplayTime i := by
  unfold SharedState.countFrameDisplayTime
  have : 0 ≤ Int.tdiv (1000 * (s.skippedFrames + i)) s.frameRate :=
    Int.tdiv_nonneg (by omega) (by omega)
  omega

theorem cfdt_mono (s : SharedState) (i j : Int) (h1 : 1 ≤ s.frameRate)
    (h4 : 0 ≤ s.skippedFrames) (hi : 0 ≤ i) (hij : i ≤ j) :
    s.countFrameDisplayTime i ≤ s.countFrameDisplayTime j := by
  unfold SharedState.countFrameDisplayTime
  have e1 : Int.tdiv (1000 * (s.skippedFrames + i)) s.frameRate
      = 1000 * (s.skippedFrames + i) / s.frameRate :=
    Int.tdiv_eq_ediv (by omega) (by omega)
  have e2 : Int.tdiv (1000 * (s.skippedFrames + j)) s.frameRate
      = 1000 * (s.skippedFrames + j) / s.frameRate :=
    Int.tdiv_eq_ediv (by omega) (by omega)
  rw [e1, e2]
  have := Int.ediv_le_ediv (by omega : (0 : Int) < s.frameRate)
    (by omega : 1000 * (s.skippedFrames + i) ≤ 1000 * (s.skippedFrames + j))
  omega

theorem frameForPaint_spec (s : SharedState) (h : Inv s) :
    ∃ f, s.frameForPaint = some f ∧ f.displayed ≠ kTimeUnknown ∧
      f.original.isNull = false := by
  have hInv := h
  obtain ⟨-, hcase⟩ := h
  rcases inv_counter_cases s hInv with hc | hc | hc | hc | hc | hc | hc | hc | hc <;>
    rw [hc] at hcase <;> norm_num at hcase
  · norm_num [InvPre, slotRendered, slotShown, slotIdx, slotNonNull,
      SharedState.getFrame] at hcase
    rw [SharedState.frameForPaint]
    norm_num [hc, SharedState.getFrame]
    exact ⟨s.f0, by simp [hcase.1, hcase.2.2.2.2.1], hcase.1, hcase.2.2.2.2.1⟩
  · norm_num [InvEven, slotRendered, slotShown, slotIdx, slotNonNull,
      SharedState.getFrame] at hcase
    rw [SharedState.frameForPaint]
    norm_num [hc, SharedState.getFrame]
    exact ⟨s.f0, by simp [hcase.1, hcase.2.1], hcase.1, hcase.2.1⟩
  · norm_num [InvOdd, slotRendered, slotShown, slotIdx, slotNonNull,
      SharedState.getFrame, SharedState.countFrameDisplayTime] at hcase
    rw [SharedState.frameForPaint]
    norm_num [hc, SharedState.getFrame]
    exact ⟨s.f0, by simp [hcase.1, hcase.2.1], hcase.1, hcase.2.1⟩
  · norm_num [InvEven, slotRendered, slotShown, slotIdx, slotNonNull,
      SharedState.getFrame] at hcase
    rw [SharedState.frameForPaint]
    norm_num [hc, SharedState.getFrame]
    exact ⟨s.f1, by simp [hcase.1, hcase.2.1], hcase.1, hcase.2.1⟩
  · norm_num [InvOdd, slotRendered, slotShown, slotIdx, slotNonNull,
      SharedState.getFrame, SharedState.countFrameDisplayTime] at hcase
    rw [SharedState.frameForPaint]
    norm_num [hc, SharedState.getFrame]
    exact ⟨s.f1, by simp [hcase.1, hcase.2.1], hcase.1, hcase.2.1⟩
  · norm_num [InvEven, slotRendered, slotShown, slotIdx, slotNonNull,
      SharedState.getFrame] at hcase
    rw [SharedState.frameForPaint]
    norm_num [hc, SharedState.getFrame]
    exact ⟨s.f2, by simp [hcase.1, hcase.2.1], hcase.1, hcase.2.1⟩
  · norm_num [InvOdd, slotRendered, slotShown, slotIdx, slotNonNull,
      SharedState.getFrame, SharedState.countFrameDisplayTime] at hcase
    rw [SharedState.frameForPaint]
    norm_num [hc, SharedState.getFrame]
    exact ⟨s.f2, by simp [hcase.1, hcase.2.1], hcase.1, hcase.2.1⟩
  · norm_num [InvEven, slotRendered, slotShown, slotIdx, slotNonNull,
      SharedState.getFrame] at hcase
    rw [SharedState.frameForPaint]
    norm_num [hc, SharedState.getFrame]
    exact ⟨s.f3, by simp [hcase.1, hcase.2.1], hcase.1, hcase.2.1⟩
  · norm_num [InvOdd, slotRendered, slotShown, slotIdx, slotNonNull,
      SharedState.getFrame, SharedState.countFrameDisplayTime] at hcase
    rw [SharedState.frameForPaint]
    norm_num [hc, SharedState.getFrame]
    exact ⟨s.f3, by simp [hcase.1, hcase.2.1], hcase.1, hcase.2.1⟩

theorem nfdt_spec (s : SharedState) (h : Inv s)
    (hc0 : s.counter ≠ kCounterUninitialized) :
    (Int.tmod s.counter 2 = 0 → s.nextFrameDisplayTime = some kTimeUnknown) ∧
    (Int.tmod s.counter 2 = 1 →
      ((s.getFrame (pendSlot s)).displayed ≠ kTimeUnknown →
        s.nextFrameDisplayTime = some kFrameDisplayTimeAlreadyDone) ∧
      ((s.getFrame (pendSlot s)).displayed = kTimeUnknown →
        s.nextFrameDisplayTime
          = some (s.countFrameDisplayTime ((s.getFrame (pendSlot s)).index)) ∧
        0 ≤ s.countFrameDisplayTime ((s.getFrame (pendSlot s)).index))) := by
  have hInv := h
  obtain ⟨hb, hcase⟩ := h
  obtain ⟨hr, hn, hsz, hst, hd0, hsk, hfi, hi0, hi1, hi2, hi3⟩ := hb
  rcases inv_counter_cases s hInv with hc | hc | hc | hc | hc | hc | hc | hc | hc
  · exact absurd (by simpa using hc) hc0
  · constructor
    · intro _
      rw [SharedState.nextFrameDisplayTime]
      norm_num [hc]
    · intro hpar
      rw [hc] at hpar
      exact absurd hpar (by decide)
  · rw [hc] at hcase
    norm_num at hcase
    norm_num [InvOdd, slotRendered, slotShown, slotIdx, slotNonNull,
      SharedState.getFrame] at hcase
    constructor
    · intro hpar
      rw [hc] at hpar
      exact absurd hpar (by decide)
    · intro _
      have hps : pendSlot s = 1 := by norm_num [pendSlot, hc]
      rw [hps]
      constructor
      · intro hd
        simp only [SharedState.getFrame] at hd
        have hbd : (s.f1.displayed != kTimeUnknown) = true := by
          simp [hd]
        rw [SharedState.nextFrameDisplayTime]
        norm_num [hc, SharedState.getFrame]
        simp [hd]
      · intro hd
        simp only [SharedState.getFrame] at hd
        have hdisp := hcase.2.2.2.2.1 hd
        have hF0 : 0 ≤ s.countFrameDisplayTime s.f1.index := by
          apply cfdt_nonneg <;> omega
        have hku : kTimeUnknown < 0 := by decide
        have hne : s.f1.display ≠ kTimeUnknown := by omega
        rw [SharedState.nextFrameDisplayTime]
        norm_num [hc, SharedState.getFrame]
        simp [SharedState.getFrame, hd, IsRendered, hne, hdisp, hF0]
        all_goals omega
  · constructor
    · intro _
      rw [SharedState.nextFrameDisplayTime]
      norm_num [hc]
    · intro hpar
      rw [hc] at hpar
      exact absurd hpar (by decide)
  · rw [hc] at hcase
    norm_num at hcase
    norm_num [InvOdd, slotRendered, slotShown, slotIdx, slotNonNull,
      SharedState.getFrame] at hcase
    constructor
    · intro hpar
      rw [hc] at hpar
      exact absurd hpar (by decide)
    · intro _
      have hps : pendSlot s = 2 := by norm_num [pendSlot, hc]
      rw [hps]
      constructor
      · intro hd
        simp only [SharedState.getFrame] at hd
        have hbd : (s.f2.displayed != kTimeUnknown) = true := by
          simp [hd]
        rw [SharedState.nextFrameDisplayTime]
        norm_num [hc, SharedState.getFrame]
        simp [hd]
      · intro hd
        simp only [SharedState.getFrame] at hd
        have hdisp := hcase.2.2.2.2.1 hd
        have hF0 : 0 ≤ s.countFrameDisplayTime s.f2.index := by
          apply cfdt_nonneg <;> omega
        have hku : kTimeUnknown < 0 := by decide
        have hne : s.f2.display ≠ kTimeUnknown := by omega
        rw [SharedState.nextFrameDisplayTime]
        norm_num [hc, SharedState.getFrame]
        simp [SharedState.getFrame, hd, IsRendered, hne, hdisp, hF0]
        all_goals omega
  · constructor
    · intro _
      rw [SharedState.nextFrameDisplayTime]
      norm_num [hc]
    · intro hpar
      rw [hc] at hpar
      exact absurd hpar (by decide)
  · rw [hc] at hcase
    norm_num at hcase
    norm_num [InvOdd, slotRendered, slotShown, slotIdx, slotNonNull,
      SharedState.getFrame] at hcase
    constructor
    · intro hpar
      rw [hc] at hpar
      exact absurd hpar (by decide)
    · intro _
      have hps : pendSlot s = 3 := by norm_num [pendSlot, hc]
      rw [hps]
      constructor
      · intro hd
        simp only [SharedState.getFrame] at hd
        have hbd : (s.f3.displayed != kTimeUnknown) = true := by
          simp [hd]
        rw [SharedState.nextFrameDisplayTime]
        norm_num [hc, SharedState.getFrame]
        simp [hd]
      · intro hd
        simp only [SharedState.getFrame] at hd
        have hdisp := hcase.2.2.2.2.1 hd
        have hF0 : 0 ≤ s.countFrameDisplayTime s.f3.index := by
          apply cfdt_nonneg <;> omega
        have hku : kTimeUnknown < 0 := by decide
        have hne : s.f3.display ≠ kTimeUnknown := by omega
        rw [SharedState.nextFrameDisplayTime]
        norm_num [hc, SharedState.getFrame]
        simp [SharedState.getFrame, hd, IsRendered, hne, hdisp, hF0]
        all_goals omega
  · constructor
    · intro _
      rw [SharedState.nextFrameDisplayTime]
      norm_num [hc]
    · intro hpar
      rw [hc] at hpar
      exact absurd hpar (by decide)
  · rw [hc] at hcase
    norm_num at hcase
    norm_num [InvOdd, slotRendered, slotShown, slotIdx, slotNonNull,
      SharedState.getFrame] at hcase
    constructor
    · intro hpar
      rw [hc] at hpar
      exact absurd hpar (by decide)
    · intro _
      have hps : pendSlot s = 0 := by norm_num [pendSlot, hc]
      rw [hps]
      constructor
      · intro hd
        simp only [SharedState.getFrame] at hd
        have hbd : (s.f0.displayed != kTimeUnknown) = true := by
          simp [hd]
        rw [SharedState.nextFrameDisplayTime]
        norm_num [hc, SharedState.getFrame]
        simp [hd]
      · intro hd
        simp only [SharedState.getFrame] at hd
        have hdisp := hcase.2.2.2.2.1 hd
        have hF0 : 0 ≤ s.countFrameDisplayTime s.f0.index := by
          apply cfdt_nonneg <;> omega
        have hku : kTimeUnknown < 0 := by decide
        have hne : s.f0.display ≠ kTimeUnknown := by omega
        rw [SharedState.nextFrameDisplayTime]
        norm_num [hc, SharedState.getFrame]
        simp [SharedState.getFrame, hd, IsRendered, hne, hdisp, hF0]
        all_goals omega

theorem renderNextFrame_total (s : SharedState) (h : Inv s)
    (hc0 : s.counter ≠ kCounterUninitialized) (req : FrameRequest) :
    (s.renderNextFrame req).isSome = true := by
  rcases inv_counter_cases s h with hc | hc | hc | hc | hc | hc | hc | hc | hc
  · exact absurd (by simpa using hc) hc0
  all_goals
    rw [SharedState.renderNextFrame]
    norm_num [hc]
    try split_ifs <;> simp

theorem markFrameShown_total (s : SharedState) (h : Inv s)
    (hc0 : s.counter ≠ kCounterUninitialized) :
    (s.markFrameShown).isSome = true := by
  rcases inv_counter_cases s h with hc | hc | hc | hc | hc | hc | hc | hc | hc
  · exact absurd (by simpa using hc) hc0
  all_goals
    rw [SharedState.markFrameShown]
    norm_num [hc]
    try split_ifs <;> simp

theorem nextFrameDisplayTime_total (s : SharedState) (h : Inv s)
    (hc0 : s.counter ≠ kCounterUninitialized) :
    (s.nextFrameDisplayTime).isSome = true := by
  have hspec := nfdt_spec s h hc0
  rcases inv_counter_cases s h with hc | hc | hc | hc | hc | hc | hc | hc | hc
  · exact absurd (by simpa using hc) hc0
  all_goals first
  | (rw [hspec.1 (by rw [hc]; decide)]; rfl)
  | (by_cases hd : (s.getFrame (pendSlot s)).displayed = kTimeUnknown
     · rw [((hspec.2 (by rw [hc]; decide)).2 hd).1]
       rfl
     · rw [(hspec.2 (by rw [hc]; decide)).1 hd]
       rfl)

/-- C1 counterexample: with framesCount = 2, the second successful
    renderNextFrame call runs with frameIndex = 1 and, per the claim,
    should tag its slot with index = (1 + 1) mod 2 = 0; the code instead
    tags the slot with the unreduced running index 2 (only the decoded
    frame position is 0). -/
theorem C1_counterexample :
    (c1state.map fun s => (s.getFrame 2).index) = some 2 ∧
    (c1state.map fun s => (s.getFrame 2).original.data)
      = some (PixData.decodedFrame 0) ∧
    (c1state.map fun s => s.framesCount) = some 2 ∧
    Int.tmod (1 + 1) 2 = 0 ∧ (2 : Int) ≠ 0 := by
  decide

theorem renderFrame_data (s : SharedState) (img : QImage) (req : FrameRequest)
    (i : Int) (hv : s.isValid = true) :
    (s.renderFrame img req i).data = PixData.decodedFrame i := by
  rw [SharedState.renderFrame]
  simp only [hv, Bool.not_true, Bool.false_eq_true, if_false]

/-- C1 (amended): every write performed by the frame-slot overload of
    renderNextFrame advances the running frame index by exactly one,
    decodes animation frame position (frameIndex + 1) mod framesCount
    (so the decoded positions of successive writes cycle through the
    residues with no skips and no repeats within a cycle), but tags the
    slot's index field with the unreduced running index frameIndex + 1,
    not with the reduced value the claim states. -/
theorem C1_amended (s : SharedState) (req : FrameRequest) (i : Nat)
    (hv : s.isValid = true) (hi : i < 4) :
    (s.renderNextFrameInto i req).frameIndex = s.frameIndex + 1 ∧
    ((s.renderNextFrameInto i req).getFrame i).index = s.frameIndex + 1 ∧
    ((s.renderNextFrameInto i req).getFrame i).original.data
      = PixData.decodedFrame (Int.tmod (s.frameIndex + 1) s.framesCount) := by
  match i with
  | 0 =>
    refine ⟨?_, ?_, ?_⟩ <;>
      norm_num [SharedState.renderNextFrameInto, SharedState.setFrame,
        SharedState.getFrame, pfr_snd_index, pfr_snd_original,
        renderFrame_data s _ req _ hv]
  | 1 =>
    refine ⟨?_, ?_, ?_⟩ <;>
      norm_num [SharedState.renderNextFrameInto, SharedState.setFrame,
        SharedState.getFrame, pfr_snd_index, pfr_snd_original,
        renderFrame_data s _ req _ hv]
  | 2 =>
    refine ⟨?_, ?_, ?_⟩ <;>
      norm_num [SharedState.renderNextFrameInto, SharedState.setFrame,
        SharedState.getFrame, pfr_snd_index, pfr_snd_original,
        renderFrame_data s _ req _ hv]
  | 3 =>
    refine ⟨?_, ?_, ?_⟩ <;>
      norm_num [SharedState.renderNextFrameInto, SharedState.setFrame,
        SharedState.getFrame, pfr_snd_index, pfr_snd_original,
        renderFrame_data s _ req _ hv]
  | n + 4 => omega

/-- Witness for C1 (amended) at the started two-frame state, slot 1. -/
theorem C1_amended_witness :
    (sF2.renderNextFrameInto 1 reqEmpty).frameIndex = sF2.frameIndex + 1 ∧
    ((sF2.renderNextFrameInto 1 reqEmpty).getFrame 1).index = sF2.frameIndex + 1 ∧
    ((sF2.renderNextFrameInto 1 reqEmpty).getFrame 1).original.data
      = PixData.decodedFrame (Int.tmod (sF2.frameIndex + 1) sF2.framesCount) :=
  C1_amended sF2 reqEmpty 1 (by decide) (by decide)

set_option maxRecDepth 8000 in
/-- C2 counterexample: in the 30 fps / 30 frames scenario the 30th
    promoted frame decodes animation position 0 (the cycle restarts),
    but its display stamp is 1000 — the formula applied to the unreduced
    running index 30 — not the value 0 the claim's restart-at-index-0
    reading predicts; moreover index 0 itself (the cover) is never
    stamped at all, so the claimed stamp sequence starting at 0 never
    occurs. -/
theorem C2_counterexample :
    (c2state.map fun s => (s.getFrame 2).original.data)
      = some (PixData.decodedFrame 0) ∧
    (c2state.map fun s => (s.getFrame 2).index) = some 30 ∧
    (c2state.map fun s => (s.getFrame 2).display) = some 1000 ∧
    (c2state.map fun s => s.nextFrameDisplayTime) = some (some 1000) ∧
    (1000 : Int) ≠ 0 := by
  decide

set_option maxRecDepth 8000 in
/-- C2 (amended): display stamps are computed by countFrameDisplayTime,
    exactly startedAt + delay + 1000 * (skippedFrames + index) / frameRate
    with truncating integer division, where index is the slot's unreduced
    running index; in the scenario the 30 first promotions are stamped
    33, 66, ..., 966, 1000 (indices 1..30; index 0, the cover, is shown at
    start and never stamped), and after the decode position wraps to 0
    the stamps continue monotonically from the same formula with no
    drift. -/
theorem C2_amended :
    (∀ (s : SharedState) (i : Int), s.countFrameDisplayTime i
      = s.started + s.delay + Int.tdiv (1000 * (s.skippedFrames + i)) s.frameRate) ∧
    (pumpTrace 30).map Prod.snd
      = some [33, 66, 100, 133, 166, 200, 233, 266, 300, 333, 366, 400, 433,
          466, 500, 533, 566, 600, 633, 666, 700, 733, 766, 800, 833, 866,
          900, 933, 966, 1000] ∧
    (c2state.map fun s => (s.getFrame 2).original.data)
      = some (PixData.decodedFrame 0) ∧
    (c2state.map fun s => (s.getFrame 2).display) = some 1000 := by
  exact ⟨fun s i => rfl, by decide, by decide, by decide⟩

/-- C8 counterexample: the request box matches the natural decoded size
    on both axes, yet because a recolor is requested GoodForRequest is
    false and PrepareFrameByRequest produces a derived image into the
    prepared field instead of returning the original buffer unmodified,
    contradicting the claim's identity condition. -/
theorem C8_counterexample :
    c8frame.request.box.w = c8frame.original.size.w ∧
    c8frame.request.box.h = c8frame.original.size.h ∧
    GoodForRequest c8frame.original c8frame.request = false ∧
    (PrepareFrameByRequest c8frame false).1 ≠ c8frame.original ∧
    (PrepareFrameByRequest c8frame false).2 ≠ c8frame := by
  decide

/-- C8 (amended): the original decoded buffer is returned unmodified
    (the frame untouched) exactly when the box is empty, or when no
    recolor is requested and the box matches the decoded size on at
    least one axis; otherwise a scaled and optionally recolored derived
    image is produced into the slot's prepared field, recomputed when
    the caller does not allow reusing the existing prepared image (as on
    the render path, which passes useExistingPrepared = false after
    storing the new request) and reused as-is when it does and one
    exists. -/
theorem C8_amended (frame : Frame) (u : Bool)
    (hnn : frame.original.isNull = false) :
    (GoodForRequest frame.original frame.request = true ↔
      (frame.request.box.isEmpty = true ∨
        (frame.request.colored = none ∧
          (frame.request.box.w = frame.original.w ∨
            frame.request.box.h = frame.original.h)))) ∧
    (GoodForRequest frame.original frame.request = true →
      PrepareFrameByRequest frame u = (frame.original, frame)) ∧
    (GoodForRequest frame.original frame.request = false →
      ((frame.prepared.isNull = true ∨ u = false) →
        (PrepareFrameByRequest frame u).1
          = PrepareByRequest frame.original frame.request frame.prepared ∧
        (PrepareFrameByRequest frame u).2
          = { frame with
              prepared := PrepareByRequest frame.original frame.request frame.prepared }) ∧
      (frame.prepared.isNull = false → u = true →
        PrepareFrameByRequest frame u = (frame.prepared, frame))) := by
  refine ⟨?_, ?_, ?_⟩
  · rw [GoodForRequest]
    constructor
    · intro hg
      split_ifs at hg with h1 h2
      · exact Or.inl h1
      · have hc : frame.request.colored = none := by
          cases hcol : frame.request.colored
          · rfl
          · rw [hcol] at h2
            simp at h2
        simp only [QImage.size, Bool.or_eq_true, beq_iff_eq] at hg
        exact Or.inr ⟨hc, hg⟩
    · intro hg
      rcases hg with h1 | ⟨h2, h3⟩
      · simp [h1]
      · split_ifs with hb hcol
        · rfl
        · rw [h2] at hcol
          simp at hcol
        · simp only [QImage.size, Bool.or_eq_true, beq_iff_eq]
          exact h3
  · intro hg
    rw [PrepareFrameByRequest, if_pos hg]
  · intro hg
    constructor
    · intro hu
      rw [PrepareFrameByRequest, if_neg (by simp [hg])]
      rw [if_pos]
      · exact ⟨rfl, rfl⟩
      · rcases hu with hu | hu <;> simp [hu]
    · intro hp hu
      rw [PrepareFrameByRequest, if_neg (by simp [hg]), if_neg (by simp [hp, hu])]

/-- Witness for C8 (amended) at a concrete frame with a non-null
    100x100 original. -/
theorem C8_amended_witness :
    (GoodForRequest c8frame.original c8frame.request = true ↔
      (c8frame.request.box.isEmpty = true ∨
        (c8frame.request.colored = none ∧
          (c8frame.request.box.w = c8frame.original.w ∨
            c8frame.request.box.h = c8frame.original.h)))) ∧
    (GoodForRequest c8frame.original c8frame.request = true →
      PrepareFrameByRequest c8frame false = (c8frame.original, c8frame)) ∧
    (GoodForRequest c8frame.original c8frame.request = false →
      ((c8frame.prepared.isNull = true ∨ false = false) →
        (PrepareFrameByRequest c8frame false).1
          = PrepareByRequest c8frame.original c8frame.request c8frame.prepared ∧
        (PrepareFrameByRequest c8frame false).2
          = { c8frame with
              prepared := PrepareByRequest c8frame.original c8frame.request c8frame.prepared }) ∧
      (c8frame.prepared.isNull = false → false = true →
        PrepareFrameByRequest c8frame false = (c8frame.prepared, c8frame))) :=
  C8_amended c8frame false (by decide)

/-- C10: isValid is exactly framesCount > 0 and frameRate > 0 and a
    non-empty size; an invalid state is inert: renderFrame returns the
    target image unmodified and information returns the empty record;
    and a decode handle reporting a nonpositive frame count, a frame
    rate below one, or a nonpositive width yields an invalid state. -/
theorem C10_invalid_inert :
    (∀ s : SharedState, s.isValid = true ↔
      (0 < s.framesCount ∧ 0 < s.frameRate ∧ s.size.isEmpty = false)) ∧
    (∀ s : SharedState, s.isValid = false →
      (∀ (img : QImage) (req : FrameRequest) (i : Int),
        s.renderFrame img req i = img) ∧ s.information = {}) ∧
    (∀ (rep : ReportedProperties) (req : FrameRequest),
      (rep.count ≤ 0 ∨ rep.rate < 1 ∨ rep.width ≤ 0) →
      (constructState rep req).isValid = false) := by
  refine ⟨isValid_iff, ?_, ?_⟩
  · intro s hv
    constructor
    · intro img req i
      rw [SharedState.renderFrame]
      simp [hv]
    · rw [SharedState.information]
      simp [hv]
  · intro rep req h
    have h0 : (calculateProperties rep {}).isValid = false := by
      rw [Bool.eq_false_iff]
      intro hv
      have hv2 := (isValid_iff _).mp hv
      norm_num [calculateProperties] at hv2
      obtain ⟨h1, h2, h3⟩ := hv2
      rw [qsize_isEmpty_false] at h3
      norm_num at h3
      rcases h with h | h | h
      · split_ifs at h1 <;> omega
      · split_ifs at h2 <;> omega
      · obtain ⟨h3a, -⟩ := h3
        split_ifs at h3a <;> omega
    rw [constructState, if_pos (by simp only [h0, Bool.not_false])]
    exact h0

/-- Witness for C10 at a concrete state and a zero-frame-count report. -/
theorem C10_invalid_inert_witness :
    (s30.isValid = true ↔
      (0 < s30.framesCount ∧ 0 < s30.frameRate ∧ s30.size.isEmpty = false)) ∧
    ((constructState ⟨100, 100, 30, 0⟩ reqEmpty).isValid = false →
      ((constructState ⟨100, 100, 30, 0⟩ reqEmpty).renderFrame
          QImage.nullImage reqEmpty 0 = QImage.nullImage) ∧
      (constructState ⟨100, 100, 30, 0⟩ reqEmpty).information = {}) ∧
    (constructState ⟨100, 100, 30, 0⟩ reqEmpty).isValid = false :=
  ⟨C10_invalid_inert.1 s30,
   fun hv => ⟨(C10_invalid_inert.2.1 _ hv).1 QImage.nullImage reqEmpty 0,
     (C10_invalid_inert.2.1 _ hv).2⟩,
   C10_invalid_inert.2.2 ⟨100, 100, 30, 0⟩ reqEmpty (Or.inl (by decide))⟩

/-- C3: start() stores 0 into the counter; in every reachable state
    after start() the counter lies in [0, 2 * kFramesCount); every
    successful call either leaves the counter unchanged or stores
    (counter + 1) mod (2 * kFramesCount); and at every such state the
    8-case switches find a matching case, so the Unexpected default
    branches of renderNextFrame, markFrameShown and nextFrameDisplayTime
    are never reached (modelled: those calls never return none). -/
theorem C3_counter_protocol (rep : ReportedProperties) (req : FrameRequest)
    (s : SharedState) (hv : (constructState rep req).isValid = true)
    (hreach : Reach rep req s) :
    (∀ t d k : Int, (s.start t d k).counter = 0) ∧
    (s.counter ≠ kCounterUninitialized →
      0 ≤ s.counter ∧ s.counter < 2 * kFramesCount) ∧
    (∀ (op : Op) (s' : SharedState), stepOp s op = some s' →
      s'.counter = s.counter ∨
        s'.counter = Int.tmod (s.counter + 1) (2 * kFramesCount)) ∧
    (s.counter ≠ kCounterUninitialized →
      (∀ req2 : FrameRequest, (s.renderNextFrame req2).isSome = true) ∧
      (s.markFrameShown).isSome = true ∧
      (s.nextFrameDisplayTime).isSome = true) := by
  have hInv := reach_inv hv hreach
  refine ⟨fun t d k => rfl, ?_, ?_, ?_⟩
  · intro hc0
    rcases inv_counter_cases s hInv with hc | hc | hc | hc | hc | hc | hc | hc | hc
    · exact absurd (by simpa using hc) hc0
    all_goals rw [hc]
    all_goals norm_num
  · intro op s' hs
    exact stepOp_counter hInv hs
  · intro hc0
    exact ⟨fun req2 => renderNextFrame_total s hInv hc0 req2,
      markFrameShown_total s hInv hc0,
      nextFrameDisplayTime_total s hInv hc0⟩

/-- Witness for C3 at the started 30-frame state. -/
theorem C3_counter_protocol_witness :
    (∀ t d k : Int, (s30.start t d k).counter = 0) ∧
    (s30.counter ≠ kCounterUninitialized →
      0 ≤ s30.counter ∧ s30.counter < 2 * kFramesCount) ∧
    (∀ (op : Op) (s' : SharedState), stepOp s30 op = some s' →
      s'.counter = s30.counter ∨
        s'.counter = Int.tmod (s30.counter + 1) (2 * kFramesCount)) ∧
    (s30.counter ≠ kCounterUninitialized →
      (∀ req2 : FrameRequest, (s30.renderNextFrame req2).isSome = true) ∧
      (s30.markFrameShown).isSome = true ∧
      (s30.nextFrameDisplayTime).isSome = true) :=
  C3_counter_protocol rep30 reqEmpty s30 (by decide)
    (@Reach.step rep30 reqEmpty (constructState rep30 reqEmpty) s30 startOp0
      Reach.base (by decide))

/-- C4: in every reachable state — including the freshly constructed
    state read by the scheduler when an entry is appended, before
    start() — frameForPaint returns a slot that was displayed (field not
    kTimeUnknown) and whose original image is non-null: its two Asserts
    hold. -/
theorem C4_frameForPaint_safe (rep : ReportedProperties) (req : FrameRequest)
    (s : SharedState) (hv : (constructState rep req).isValid = true)
    (hreach : Reach rep req s) :
    ∃ f, s.frameForPaint = some f ∧ f.displayed ≠ kTimeUnknown ∧
      f.original.isNull = false :=
  frameForPaint_spec s (reach_inv hv hreach)

/-- Witness for C4 at the freshly constructed (pre-start) state. -/
theorem C4_frameForPaint_safe_witness :
    ∃ f, (constructState rep30 reqEmpty).frameForPaint = some f ∧
      f.displayed ≠ kTimeUnknown ∧ f.original.isNull = false :=
  C4_frameForPaint_safe rep30 reqEmpty (constructState rep30 reqEmpty)
    (by decide) Reach.base

/-- C5 counterexample: at the freshly started state the counter is 0 and
    the slot examined for the next phase (slot (0 + 1) / 2 = 0) is
    already displayed, yet markFrameShown returns false and leaves the
    state unchanged — contradicting the claim that it advances the
    counter and returns true exactly when that slot is displayed. -/
theorem C5_counterexample :
    s30.counter = 0 ∧
    (s30.getFrame (pendSlot s30)).displayed ≠ kTimeUnknown ∧
    s30.markFrameShown = some (s30, false) := by
  decide

/-- C5 (amended): at even phases markFrameShown unconditionally returns
    false and changes nothing (promotion out of an even phase is done by
    renderNextFrame, not markFrameShown); at odd phases it advances the
    counter to (counter + 1) mod (2 * kFramesCount) and returns true
    exactly when the frame awaiting promotion was already displayed, and
    otherwise returns false leaving the state unchanged. -/
theorem C5_amended (s : SharedState) (h0 : 0 ≤ s.counter)
    (h8 : s.counter < 2 * kFramesCount) :
    (Int.tmod s.counter 2 = 0 → s.markFrameShown = some (s, false)) ∧
    (Int.tmod s.counter 2 = 1 →
      ((s.getFrame (pendSlot s)).displayed = kTimeUnknown →
        s.markFrameShown = some (s, false)) ∧
      ((s.getFrame (pendSlot s)).displayed ≠ kTimeUnknown →
        s.markFrameShown
          = some ({ s with counter := Int.tmod (s.counter + 1) (2 * kFramesCount) },
              true))) := by
  rw [kFramesCount_eq] at h8
  have hcases : s.counter = 0 ∨ s.counter = 1 ∨ s.counter = 2 ∨ s.counter = 3 ∨
      s.counter = 4 ∨ s.counter = 5 ∨ s.counter = 6 ∨ s.counter = 7 := by omega
  rcases hcases with hc | hc | hc | hc | hc | hc | hc | hc
  · constructor
    · intro _
      rw [SharedState.markFrameShown]
      norm_num [hc]
    · intro hpar
      rw [hc] at hpar
      exact absurd hpar (by decide)
  · constructor
    · intro hpar
      rw [hc] at hpar
      exact absurd hpar (by decide)
    · have hps : pendSlot s = 1 := by norm_num [pendSlot, hc]
      rw [hps]
      intro _
      constructor
      · intro hd
        simp only [SharedState.getFrame] at hd
        rw [SharedState.markFrameShown]
        norm_num [hc]
        simp [SharedState.getFrame, hd]
      · intro hd
        simp only [SharedState.getFrame] at hd
        rw [SharedState.markFrameShown]
        norm_num [hc]
        simp [SharedState.getFrame, hd, hc]
  · constructor
    · intro _
      rw [SharedState.markFrameShown]
      norm_num [hc]
    · intro hpar
      rw [hc] at hpar
      exact absurd hpar (by decide)
  · constructor
    · intro hpar
      rw [hc] at hpar
      exact absurd hpar (by decide)
    · have hps : pendSlot s = 2 := by norm_num [pendSlot, hc]
      rw [hps]
      intro _
      constructor
      · intro hd
        simp only [SharedState.getFrame] at hd
        rw [SharedState.markFrameShown]
        norm_num [hc]
        simp [SharedState.getFrame, hd]
      · intro hd
        simp only [SharedState.getFrame] at hd
        rw [SharedState.markFrameShown]
        norm_num [hc]
        simp [SharedState.getFrame, hd, hc]
  · constructor
    · intro _
      rw [SharedState.markFrameShown]
      norm_num [hc]
    · intro hpar
      rw [hc] at hpar
      exact absurd hpar (by decide)
  · constructor
    · intro hpar
      rw [hc] at hpar
      exact absurd hpar (by decide)
    · have hps : pendSlot s = 3 := by norm_num [pendSlot, hc]
      rw [hps]
      intro _
      constructor
      · intro hd
        simp only [SharedState.getFrame] at hd
        rw [SharedState.markFrameShown]
        norm_num [hc]
        simp [SharedState.getFrame, hd]
      · intro hd
        simp only [SharedState.getFrame] at hd
        rw [SharedState.markFrameShown]
        norm_num [hc]
        simp [SharedState.getFrame, hd, hc]
  · constructor
    · intro _
      rw [SharedState.markFrameShown]
      norm_num [hc]
    · intro hpar
      rw [hc] at hpar
      exact absurd hpar (by decide)
  · constructor
    · intro hpar
      rw [hc] at hpar
      exact absurd hpar (by decide)
    · have hps : pendSlot s = 0 := by norm_num [pendSlot, hc]
      rw [hps]
      intro _
      constructor
      · intro hd
        simp only [SharedState.getFrame] at hd
        rw [SharedState.markFrameShown]
        norm_num [hc]
        simp [SharedState.getFrame, hd]
      · intro hd
        simp only [SharedState.getFrame] at hd
        rw [SharedState.markFrameShown]
        norm_num [hc]
        simp [SharedState.getFrame, hd, hc]

/-- Witness for C5 (amended) at the started 30-frame state. -/
theorem C5_amended_witness :
    (Int.tmod s30.counter 2 = 0 → s30.markFrameShown = some (s30, false)) ∧
    (Int.tmod s30.counter 2 = 1 →
      ((s30.getFrame (pendSlot s30)).displayed = kTimeUnknown →
        s30.markFrameShown = some (s30, false)) ∧
      ((s30.getFrame (pendSlot s30)).displayed ≠ kTimeUnknown →
        s30.markFrameShown
          = some ({ s30 with counter := Int.tmod (s30.counter + 1) (2 * kFramesCount) },
              true))) :=
  C5_amended s30 (by decide) (by decide)

theorem delay_shift_c1 (s : SharedState) (h : Inv s) (hc : s.counter = 1)
    (d : Int) (hd : 0 ≤ d) (hpend : s.f1.displayed = kTimeUnknown) :
    (s.addTimelineDelay d 0).bind SharedState.nextFrameDisplayTime
      = some (s.countFrameDisplayTime s.f1.index + d) := by
  have hInv := h
  obtain ⟨hb, hcase⟩ := h
  obtain ⟨hr, hn, hsz, hst, hd0, hsk, hfi, hi0, hi1, hi2, hi3⟩ := hb
  rw [hc] at hcase
  norm_num at hcase
  norm_num [InvOdd, slotRendered, slotShown, slotIdx, slotNonNull,
    SharedState.getFrame] at hcase
  have hdisp := hcase.2.2.2.2.1 hpend
  have hF0 : 0 ≤ s.countFrameDisplayTime s.f1.index := by
    apply cfdt_nonneg <;> omega
  have hku : kTimeUnknown < 0 := by decide
  have hne : s.f1.display ≠ kTimeUnknown := by omega
  have hps : pendSlot s = 1 := by norm_num [pendSlot, hc]
  by_cases hz : d = 0
  · subst hz
    have heval := ((nfdt_spec s hInv (by rw [hc]; decide)).2 (by rw [hc]; decide)).2
      (by rw [hps]; simpa [SharedState.getFrame] using hpend)
    rw [hps] at heval
    simp only [SharedState.getFrame] at heval
    rw [SharedState.addTimelineDelay]
    norm_num
    rw [heval.1]
  · rw [SharedState.addTimelineDelay]
    rw [if_neg (by omega)]
    norm_num [hc, SharedState.getFrame, SharedState.setFrame]
    simp only [hpend, IsRendered]
    simp only [if_true, beq_self_eq_true, Bool.true_eq_false, if_false, if_neg hne,
      Option.some_bind]
    rw [SharedState.nextFrameDisplayTime]
    norm_num [SharedState.getFrame]
    rw [SharedState.countFrameDisplayTime, SharedState.countFrameDisplayTime]
    norm_num [IsRendered]
    have htd : 0 ≤ Int.tdiv (1000 * (s.skippedFrames + s.f1.index)) s.frameRate :=
      Int.tdiv_nonneg (by omega) (by omega)
    constructor <;> omega

theorem delay_shift_c3 (s : SharedState) (h : Inv s) (hc : s.counter = 3)
    (d : Int) (hd : 0 ≤ d) (hpend : s.f2.displayed = kTimeUnknown) :
    (s.addTimelineDelay d 0).bind SharedState.nextFrameDisplayTime
      = some (s.countFrameDisplayTime s.f2.index + d) := by
  have hInv := h
  obtain ⟨hb, hcase⟩ := h
  obtain ⟨hr, hn, hsz, hst, hd0, hsk, hfi, hi0, hi1, hi2, hi3⟩ := hb
  rw [hc] at hcase
  norm_num at hcase
  norm_num [InvOdd, slotRendered, slotShown, slotIdx, slotNonNull,
    SharedState.getFrame] at hcase
  have hdisp := hcase.2.2.2.2.1 hpend
  have hF0 : 0 ≤ s.countFrameDisplayTime s.f2.index := by
    apply cfdt_nonneg <;> omega
  have hku : kTimeUnknown < 0 := by decide
  have hne : s.f2.display ≠ kTimeUnknown := by omega
  have hps : pendSlot s = 2 := by norm_num [pendSlot, hc]
  by_cases hz : d = 0
  · subst hz
    have heval := ((nfdt_spec s hInv (by rw [hc]; decide)).2 (by rw [hc]; decide)).2
      (by rw [hps]; simpa [SharedState.getFrame] using hpend)
    rw [hps] at heval
    simp only [SharedState.getFrame] at heval
    rw [SharedState.addTimelineDelay]
    norm_num
    rw [heval.1]
  · rw [SharedState.addTimelineDelay]
    rw [if_neg (by omega)]
    norm_num [hc, SharedState.getFrame, SharedState.setFrame]
    simp only [hpend, IsRendered]
    simp only [if_true, beq_self_eq_true, Bool.true_eq_false, if_false, if_neg hne,
      Option.some_bind]
    rw [SharedState.nextFrameDisplayTime]
    norm_num [SharedState.getFrame]
    rw [SharedState.countFrameDisplayTime, SharedState.countFrameDisplayTime]
    norm_num [IsRendered]
    have htd : 0 ≤ Int.tdiv (1000 * (s.skippedFrames + s.f2.index)) s.frameRate :=
      Int.tdiv_nonneg (by omega) (by omega)
    constructor <;> omega

theorem delay_shift_c5 (s : SharedState) (h : Inv s) (hc : s.counter = 5)
    (d : Int) (hd : 0 ≤ d) (hpend : s.f3.displayed = kTimeUnknown) :
    (s.addTimelineDelay d 0).bind SharedState.nextFrameDisplayTime
      = some (s.countFrameDisplayTime s.f3.index + d) := by
  have hInv := h
  obtain ⟨hb, hcase⟩ := h
  obtain ⟨hr, hn, hsz, hst, hd0, hsk, hfi, hi0, hi1, hi2, hi3⟩ := hb
  rw [hc] at hcase
  norm_num at hcase
  norm_num [InvOdd, slotRendered, slotShown, slotIdx, slotNonNull,
    SharedState.getFrame] at hcase
  have hdisp := hcase.2.2.2.2.1 hpend
  have hF0 : 0 ≤ s.countFrameDisplayTime s.f3.index := by
    apply cfdt_nonneg <;> omega
  have hku : kTimeUnknown < 0 := by decide
  have hne : s.f3.display ≠ kTimeUnknown := by omega
  have hps : pendSlot s = 3 := by norm_num [pendSlot, hc]
  by_cases hz : d = 0
  · subst hz
    have heval := ((nfdt_spec s hInv (by rw [hc]; decide)).2 (by rw [hc]; decide)).2
      (by rw [hps]; simpa [SharedState.getFrame] using hpend)
    rw [hps] at heval
    simp only [SharedState.getFrame] at heval
    rw [SharedState.addTimelineDelay]
    norm_num
    rw [heval.1]
  · rw [SharedState.addTimelineDelay]
    rw [if_neg (by omega)]
    norm_num [hc, SharedState.getFrame, SharedState.setFrame]
    simp only [hpend, IsRendered]
    simp only [if_true, beq_self_eq_true, Bool.true_eq_false, if_false, if_neg hne,
      Option.some_bind]
    rw [SharedState.nextFrameDisplayTime]
    norm_num [SharedState.getFrame]
    rw [SharedState.countFrameDisplayTime, SharedState.countFrameDisplayTime]
    norm_num [IsRendered]
    have htd : 0 ≤ Int.tdiv (1000 * (s.skippedFrames + s.f3.index)) s.frameRate :=
      Int.tdiv_nonneg (by omega) (by omega)
    constructor <;> omega

theorem delay_shift_c7 (s : SharedState) (h : Inv s) (hc : s.counter = 7)
    (d : Int) (hd : 0 ≤ d) (hpend : s.f0.displayed = kTimeUnknown) :
    (s.addTimelineDelay d 0).bind SharedState.nextFrameDisplayTime
      = some (s.countFrameDisplayTime s.f0.index + d) := by
  have hInv := h
  obtain ⟨hb, hcase⟩ := h
  obtain ⟨hr, hn, hsz, hst, hd0, hsk, hfi, hi0, hi1, hi2, hi3⟩ := hb
  rw [hc] at hcase
  norm_num at hcase
  norm_num [InvOdd, slotRendered, slotShown, slotIdx, slotNonNull,
    SharedState.getFrame] at hcase
  have hdisp := hcase.2.2.2.2.1 hpend
  have hF0 : 0 ≤ s.countFrameDisplayTime s.f0.index := by
    apply cfdt_nonneg <;> omega
  have hku : kTimeUnknown < 0 := by decide
  have hne : s.f0.display ≠ kTimeUnknown := by omega
  have hps : pendSlot s = 0 := by norm_num [pendSlot, hc]
  by_cases hz : d = 0
  · subst hz
    have heval := ((nfdt_spec s hInv (by rw [hc]; decide)).2 (by rw [hc]; decide)).2
      (by rw [hps]; simpa [SharedState.getFrame] using hpend)
    rw [hps] at heval
    simp only [SharedState.getFrame] at heval
    rw [SharedState.addTimelineDelay]
    norm_num
    rw [heval.1]
  · rw [SharedState.addTimelineDelay]
    rw [if_neg (by omega)]
    norm_num [hc, SharedState.getFrame, SharedState.setFrame]
    simp only [hpend, IsRendered]
    simp only [if_true, beq_self_eq_true, Bool.true_eq_false, if_false, if_neg hne,
      Option.some_bind]
    rw [SharedState.nextFrameDisplayTime]
    norm_num [SharedState.getFrame]
    rw [SharedState.countFrameDisplayTime, SharedState.countFrameDisplayTime]
    norm_num [IsRendered]
    have htd : 0 ≤ Int.tdiv (1000 * (s.skippedFrames + s.f0.index)) s.frameRate :=
      Int.tdiv_nonneg (by omega) (by omega)
    constructor <;> omega

/-- C6 counterexample: at an odd phase whose pending frame was already
    marked displayed, nextFrameDisplayTime returns the sentinel
    kFrameDisplayTimeAlreadyDone — neither Unknown nor the scheduled
    wall-clock display time (33 here) — contradicting the claim that it
    returns Unknown exactly when there is nothing to wait for and the
    scheduled time otherwise. -/
theorem C6_counterexample :
    (c6state.map fun s => s.nextFrameDisplayTime)
      = some (some kFrameDisplayTimeAlreadyDone) ∧
    (c6state.map fun s => (s.getFrame 1).display) = some 33 ∧
    (c6state.map fun s => Int.tmod s.counter 2) = some 1 ∧
    kFrameDisplayTimeAlreadyDone ≠ (33 : Int) ∧
    kFrameDisplayTimeAlreadyDone ≠ kTimeUnknown := by
  decide

/-- C6 (amended): on reachable started states, nextFrameDisplayTime
    returns kTimeUnknown exactly at even phases; at odd phases it
    returns the pending frame's scheduled display time
    countFrameDisplayTime(index) while that frame is not yet marked
    displayed, and the kFrameDisplayTimeAlreadyDone sentinel once it has
    been marked displayed but not yet shown. -/
theorem C6_amended (rep : ReportedProperties) (req : FrameRequest)
    (s : SharedState) (hv : (constructState rep req).isValid = true)
    (hreach : Reach rep req s) (hc0 : s.counter ≠ kCounterUninitialized) :
    (s.nextFrameDisplayTime = some kTimeUnknown ↔ Int.tmod s.counter 2 = 0) ∧
    (Int.tmod s.counter 2 = 1 →
      ((s.getFrame (pendSlot s)).displayed = kTimeUnknown →
        s.nextFrameDisplayTime
          = some (s.countFrameDisplayTime ((s.getFrame (pendSlot s)).index))) ∧
      ((s.getFrame (pendSlot s)).displayed ≠ kTimeUnknown →
        s.nextFrameDisplayTime = some kFrameDisplayTimeAlreadyDone)) := by
  have hInv := reach_inv hv hreach
  have hspec := nfdt_spec s hInv hc0
  have hpar01 : Int.tmod s.counter 2 = 0 ∨ Int.tmod s.counter 2 = 1 := by
    rcases inv_counter_cases s hInv with hc | hc | hc | hc | hc | hc | hc | hc | hc
    · exact absurd (by simpa using hc) hc0
    all_goals rw [hc]
    all_goals first
      | (left; decide)
      | (right; decide)
  refine ⟨⟨?_, hspec.1⟩, ?_⟩
  · intro hU
    rcases hpar01 with hp | hp
    · exact hp
    · exfalso
      by_cases hdq : (s.getFrame (pendSlot s)).displayed = kTimeUnknown
      · obtain ⟨heq, hge⟩ := (hspec.2 hp).2 hdq
        rw [heq] at hU
        have hku : kTimeUnknown < 0 := by decide
        simp only [Option.some.injEq] at hU
        omega
      · have heq := (hspec.2 hp).1 hdq
        rw [heq] at hU
        simp only [Option.some.injEq] at hU
        exact absurd hU (by decide)
  · intro hp
    exact ⟨fun hd => ((hspec.2 hp).2 hd).1, fun hd => (hspec.2 hp).1 hd⟩

/-- Witness for C6 (amended) at the post-render state. -/
theorem C6_amended_witness :
    ((s31.nextFrameDisplayTime = some kTimeUnknown ↔ Int.tmod s31.counter 2 = 0) ∧
    (Int.tmod s31.counter 2 = 1 →
      ((s31.getFrame (pendSlot s31)).displayed = kTimeUnknown →
        s31.nextFrameDisplayTime
          = some (s31.countFrameDisplayTime ((s31.getFrame (pendSlot s31)).index))) ∧
      ((s31.getFrame (pendSlot s31)).displayed ≠ kTimeUnknown →
        s31.nextFrameDisplayTime = some kFrameDisplayTimeAlreadyDone))) :=
  C6_amended rep30 reqEmpty s31 (by decide)
    (@Reach.step rep30 reqEmpty s30 s31 (Op.renderOp reqEmpty)
      (@Reach.step rep30 reqEmpty (constructState rep30 reqEmpty) s30 startOp0
        Reach.base (by decide))
      (by decide))
    (by decide)

/-- C7: on a reachable started state at an odd phase whose pending frame
    is not yet displayed, if nextFrameDisplayTime returns T then calling
    addTimelineDelay(d, 0) (a pure delay, no skipped frames) succeeds
    and an immediately following poll returns exactly T + d. -/
theorem C7_delay_shift (rep : ReportedProperties) (req : FrameRequest)
    (s : SharedState) (hv : (constructState rep req).isValid = true)
    (hreach : Reach rep req s) (d T : Int) (hd : 0 ≤ d)
    (hpar : Int.tmod s.counter 2 = 1)
    (hpend : (s.getFrame (pendSlot s)).displayed = kTimeUnknown)
    (hT : s.nextFrameDisplayTime = some T) :
    (s.addTimelineDelay d 0).bind SharedState.nextFrameDisplayTime
      = some (T + d) := by
  have hInv := reach_inv hv hreach
  have hc0 : s.counter ≠ kCounterUninitialized := by
    intro hcu
    rw [hcu] at hpar
    exact absurd hpar (by decide)
  have hspec := ((nfdt_spec s hInv hc0).2 hpar).2 hpend
  have hTeq : T = s.countFrameDisplayTime ((s.getFrame (pendSlot s)).index) := by
    rw [hT] at hspec
    exact Option.some.inj hspec.1
  rcases inv_counter_cases s hInv with hc | hc | hc | hc | hc | hc | hc | hc | hc
  · exact absurd (by simpa using hc) hc0
  · rw [hc] at hpar
    exact absurd hpar (by decide)
  · have hps : pendSlot s = 1 := by norm_num [pendSlot, hc]
    rw [hps] at hpend hTeq
    simp only [SharedState.getFrame] at hpend hTeq
    rw [hTeq]
    exact delay_shift_c1 s hInv hc d hd hpend
  · rw [hc] at hpar
    exact absurd hpar (by decide)
  · have hps : pendSlot s = 2 := by norm_num [pendSlot, hc]
    rw [hps] at hpend hTeq
    simp only [SharedState.getFrame] at hpend hTeq
    rw [hTeq]
    exact delay_shift_c3 s hInv hc d hd hpend
  · rw [hc] at hpar
    exact absurd hpar (by decide)
  · have hps : pendSlot s = 3 := by norm_num [pendSlot, hc]
    rw [hps] at hpend hTeq
    simp only [SharedState.getFrame] at hpend hTeq
    rw [hTeq]
    exact delay_shift_c5 s hInv hc d hd hpend
  · rw [hc] at hpar
    exact absurd hpar (by decide)
  · have hps : pendSlot s = 0 := by norm_num [pendSlot, hc]
    rw [hps] at hpend hTeq
    simp only [SharedState.getFrame] at hpend hTeq
    rw [hTeq]
    exact delay_shift_c7 s hInv hc d hd hpend

/-- Witness for C7 at the post-render state with d = 10: the pending
    stamp 33 shifts to 43. -/
theorem C7_delay_shift_witness :
    (s31.addTimelineDelay 10 0).bind SharedState.nextFrameDisplayTime
      = some (33 + 10) :=
  C7_delay_shift rep30 reqEmpty s31 (by decide)
    (@Reach.step rep30 reqEmpty s30 s31 (Op.renderOp reqEmpty)
      (@Reach.step rep30 reqEmpty (constructState rep30 reqEmpty) s30 startOp0
        Reach.base (by decide))
      (by decide))
    10 33 (by decide) (by decide) (by decide) (by decide)

theorem Nval_nonneg (s : SharedState) (h : Inv s) : 0 ≤ Nval s := by
  have hInv := h
  obtain ⟨hb, -⟩ := h
  obtain ⟨hr, hn, hsz, hst, hd0, hsk, hfi, hi0, hi1, hi2, hi3⟩ := hb
  rcases inv_counter_cases s hInv with hc | hc | hc | hc | hc | hc | hc | hc | hc
  all_goals norm_num [Nval, slotIdx, SharedState.getFrame, hc]
  all_goals omega

theorem nd_chain_step {s s' : SharedState} (h : Inv s)
    (hc0 : s.counter ≠ kCounterUninitialized) (hstep : NDStep s s') :
    Inv s' ∧ s'.counter ≠ kCounterUninitialized ∧ s'.started = s.started ∧
      s'.delay = s.delay ∧ s'.skippedFrames = s.skippedFrames ∧
      s'.frameRate = s.frameRate ∧ Nval s ≤ Nval s' := by
  obtain ⟨op, hs, hnd⟩ := hstep
  have hInv' := inv_stepOp h hs
  have hprm := stepOp_nd h hs hc0 hnd
  refine ⟨hInv', ?_, hprm.1, hprm.2.1, hprm.2.2.1, hprm.2.2.2.1, hprm.2.2.2.2⟩
  rcases stepOp_counter h hs with he | he
  · rw [he]
    exact hc0
  · rw [he]
    rcases inv_counter_cases s h with hc | hc | hc | hc | hc | hc | hc | hc | hc
    · exact absurd (by simpa using hc) hc0
    all_goals rw [hc]
    all_goals decide

theorem nd_chain (s s' : SharedState) (h : Inv s)
    (hc0 : s.counter ≠ kCounterUninitialized)
    (hchain : Relation.ReflTransGen NDStep s s') :
    Inv s' ∧ s'.counter ≠ kCounterUninitialized ∧ s'.started = s.started ∧
      s'.delay = s.delay ∧ s'.skippedFrames = s.skippedFrames ∧
      s'.frameRate = s.frameRate ∧ Nval s ≤ Nval s' := by
  induction hchain with
  | refl => exact ⟨h, hc0, rfl, rfl, rfl, rfl, le_refl _⟩
  | tail hab hbc ih =>
    obtain ⟨hI, hc0b, h1, h2, h3, h4, h5⟩ := ih
    obtain ⟨hI2, hc02, h12, h22, h32, h42, h52⟩ := nd_chain_step hI hc0b hbc
    exact ⟨hI2, hc02, h12.trans h1, h22.trans h2, h32.trans h3, h42.trans h4,
      le_trans h5 h52⟩

theorem poll_real (s : SharedState) (h : Inv s) (T : Int)
    (hT : s.nextFrameDisplayTime = some T)
    (hT1 : T ≠ kTimeUnknown) (hT2 : T ≠ kFrameDisplayTimeAlreadyDone) :
    T = s.countFrameDisplayTime (Nval s) := by
  have hc0 : s.counter ≠ kCounterUninitialized := by
    intro hcu
    rw [SharedState.nextFrameDisplayTime] at hT
    norm_num [hcu] at hT
    exact Option.noConfusion hT
  have hspec := nfdt_spec s h hc0
  have hpar01 : Int.tmod s.counter 2 = 0 ∨ Int.tmod s.counter 2 = 1 := by
    rcases inv_counter_cases s h with hc | hc | hc | hc | hc | hc | hc | hc | hc
    · exact absurd (by simpa using hc) hc0
    all_goals rw [hc]
    all_goals first
      | (left; decide)
      | (right; decide)
  rcases hpar01 with hp | hp
  · rw [hspec.1 hp] at hT
    exact absurd (Option.some.inj hT).symm hT1
  · by_cases hd : (s.getFrame (pendSlot s)).displayed = kTimeUnknown
    · have hval := (hspec.2 hp).2 hd
      rw [hval.1] at hT
      rw [Nval_def]
      exact (Option.some.inj hT).symm
    · have hval := (hspec.2 hp).1 hd
      rw [hval] at hT
      exact absurd (Option.some.inj hT).symm hT2

/-- C9 (amended): over any sequence of legal calls containing no
    addTimelineDelay, the genuine scheduled display times returned by
    nextFrameDisplayTime — values other than the kTimeUnknown and
    kFrameDisplayTimeAlreadyDone sentinels — are monotonically
    non-decreasing. -/
theorem C9_amended (rep : ReportedProperties) (req : FrameRequest)
    (s s' : SharedState) (hv : (constructState rep req).isValid = true)
    (hreach : Reach rep req s)
    (hchain : Relation.ReflTransGen NDStep s s') (T T' : Int)
    (hT : s.nextFrameDisplayTime = some T)
    (hT' : s'.nextFrameDisplayTime = some T')
    (hT1 : T ≠ kTimeUnknown) (hT2 : T ≠ kFrameDisplayTimeAlreadyDone)
    (hT1' : T' ≠ kTimeUnknown) (hT2' : T' ≠ kFrameDisplayTimeAlreadyDone) :
    T ≤ T' := by
  have hInv := reach_inv hv hreach
  have hc0 : s.counter ≠ kCounterUninitialized := by
    intro hcu
    rw [SharedState.nextFrameDisplayTime] at hT
    norm_num [hcu] at hT
    exact Option.noConfusion hT
  obtain ⟨hI2, hc02, h1, h2, h3, h4, h5⟩ := nd_chain s s' hInv hc0 hchain
  have e1 := poll_real s hInv T hT hT1 hT2
  have e2 := poll_real s' hI2 T' hT' hT1' hT2'
  have hNn : 0 ≤ Nval s := Nval_nonneg s hInv
  obtain ⟨⟨hr, hn, hsz, hst, hd0, hsk, -⟩, -⟩ := hInv
  have hmono := cfdt_mono s (Nval s) (Nval s') hr hsk hNn h5
  have hcongr : s'.countFrameDisplayTime (Nval s')
      = s.countFrameDisplayTime (Nval s') := by
    rw [SharedState.countFrameDisplayTime, SharedState.countFrameDisplayTime,
      h1, h2, h3, h4]
  omega

/-- C9 counterexample: three consecutive nextFrameDisplayTime polls on a
    legal call sequence with no addTimelineDelay return 33, then the
    kFrameDisplayTimeAlreadyDone sentinel (the maximal int64), then 66 —
    the returned values are not monotonically non-decreasing. -/
theorem C9_counterexample :
    s31.nextFrameDisplayTime = some 33 ∧
    s32.nextFrameDisplayTime = some kFrameDisplayTimeAlreadyDone ∧
    s34.nextFrameDisplayTime = some 66 ∧
    stepOp s31 (Op.displayedOp 5) = some s32 ∧
    stepOp s32 Op.shownOp = some s33 ∧
    stepOp s33 (Op.renderOp reqEmpty) = some s34 ∧
    ¬ (kFrameDisplayTimeAlreadyDone ≤ (66 : Int)) := by
  decide

/-- Witness for C9 (amended): polls 33 and 66 around a displayed, shown,
    render sequence without addTimelineDelay satisfy 33 ≤ 66. -/
theorem C9_amended_witness : (33 : Int) ≤ 66 :=
  C9_amended rep30 reqEmpty s31 s34 (by decide)
    (@Reach.step rep30 reqEmpty s30 s31 (Op.renderOp reqEmpty)
      (@Reach.step rep30 reqEmpty (constructState rep30 reqEmpty) s30 startOp0
        Reach.base (by decide))
      (by decide))
    (Relation.ReflTransGen.tail
      (Relation.ReflTransGen.tail
        (Relation.ReflTransGen.tail (Relation.ReflTransGen.refl)
          ((⟨Op.displayedOp 5, by decide, fun d k h => Op.noConfusion h⟩ :
            NDStep s31 s32)))
        ((⟨Op.shownOp, by decide, fun d k h => Op.noConfusion h⟩ :
          NDStep s32 s33)))
      ((⟨Op.renderOp reqEmpty, by decide, fun d k h => Op.noConfusion h⟩ :
        NDStep s33 s34)))
    33 66 (by decide) (by decide) (by decide) (by decide) (by decide) (by decide)

end Lottie
